import Mathlib

/-!
Verification of the session-store core of the KIBA procurement backend.

The embedding models the JSON-valued session records manipulated by
`src/backend/server.py` as a shallow JSON datatype (`Val`) with
assoc-list objects (`Obj`).  Python `dict` reads, writes and `{**a, **b}`
merges become `objGet`, `objSet` and `objMerge`; Python truthiness is
`pyTruthy`.  Python's `float` values never undergo arithmetic in the
modelled code beyond sign comparisons, so JSON numbers are modelled as
integers.  Exceptions caught by the route handlers' `except` blocks are
modelled as a dedicated 500-response constructor; a handler that raises
leaves the store untouched, mirroring the fact that `store.set` is only
called at the end of each handler.
-/

inductive Val where
  | null
  | bool (b : Bool)
  | num (n : Int)
  | str (s : String)
  | arr (elems : List Val)
  | obj (fields : List (String × Val))

/-- Python records are JSON objects: assoc lists of string keys. -/
abbrev Obj := List (String × Val)

mutual

/-- Structural equality of JSON values (Python `==` on parsed JSON).
(Python's numeric cross-type equalities such as `True == 1` are not
modelled; no modelled comparison mixes those types.) -/
def valBeq : Val → Val → Bool
  | .null, .null => true
  | .bool a, .bool b => a == b
  | .num a, .num b => a == b
  | .str a, .str b => a == b
  | .arr xs, .arr ys => valBeqList xs ys
  | .obj xs, .obj ys => valBeqFields xs ys
  | _, _ => false

def valBeqList : List Val → List Val → Bool
  | [], [] => true
  | x :: xs, y :: ys => valBeq x y && valBeqList xs ys
  | _, _ => false

def valBeqFields : List (String × Val) → List (String × Val) → Bool
  | [], [] => true
  | (k, x) :: xs, (l, y) :: ys => k == l && valBeq x y && valBeqFields xs ys
  | _, _ => false

end

mutual

theorem valBeq_iff : ∀ a b : Val, valBeq a b = true ↔ a = b
  | .null, .null => by simp [valBeq]
  | .bool _, .bool _ => by simp [valBeq]
  | .num _, .num _ => by simp [valBeq]
  | .str _, .str _ => by simp [valBeq]
  | .arr xs, .arr ys => by
    rw [valBeq]
    rw [valBeqList_iff xs ys]
    simp
  | .obj xs, .obj ys => by
    rw [valBeq]
    rw [valBeqFields_iff xs ys]
    simp
  | .null, .bool _ => by simp [valBeq]
  | .null, .num _ => by simp [valBeq]
  | .null, .str _ => by simp [valBeq]
  | .null, .arr _ => by simp [valBeq]
  | .null, .obj _ => by simp [valBeq]
  | .bool _, .null => by simp [valBeq]
  | .bool _, .num _ => by simp [valBeq]
  | .bool _, .str _ => by simp [valBeq]
  | .bool _, .arr _ => by simp [valBeq]
  | .bool _, .obj _ => by simp [valBeq]
  | .num _, .null => by simp [valBeq]
  | .num _, .bool _ => by simp [valBeq]
  | .num _, .str _ => by simp [valBeq]
  | .num _, .arr _ => by simp [valBeq]
  | .num _, .obj _ => by simp [valBeq]
  | .str _, .null => by simp [valBeq]
  | .str _, .bool _ => by simp [valBeq]
  | .str _, .num _ => by simp [valBeq]
  | .str _, .arr _ => by simp [valBeq]
  | .str _, .obj _ => by simp [valBeq]
  | .arr _, .null => by simp [valBeq]
  | .arr _, .bool _ => by simp [valBeq]
  | .arr _, .num _ => by simp [valBeq]
  | .arr _, .str _ => by simp [valBeq]
  | .arr _, .obj _ => by simp [valBeq]
  | .obj _, .null => by simp [valBeq]
  | .obj _, .bool _ => by simp [valBeq]
  | .obj _, .num _ => by simp [valBeq]
  | .obj _, .str _ => by simp [valBeq]
  | .obj _, .arr _ => by simp [valBeq]

theorem valBeqList_iff : ∀ xs ys : List Val, valBeqList xs ys = true ↔ xs = ys
  | [], [] => by simp [valBeqList]
  | [], _ :: _ => by simp [valBeqList]
  | _ :: _, [] => by simp [valBeqList]
  | x :: xs, y :: ys => by
    rw [valBeqList]
    rw [Bool.and_eq_true]
    rw [valBeq_iff x y]
    rw [valBeqList_iff xs ys]
    simp

theorem valBeqFields_iff : ∀ xs ys : List (String × Val), valBeqFields xs ys = true ↔ xs = ys
  | [], [] => by simp [valBeqFields]
  | [], _ :: _ => by simp [valBeqFields]
  | _ :: _, [] => by simp [valBeqFields]
  | (k, x) :: xs, (l, y) :: ys => by
    rw [valBeqFields]
    rw [Bool.and_eq_true]
    rw [Bool.and_eq_true]
    rw [valBeq_iff x y]
    rw [valBeqFields_iff xs ys]
    simp [Prod.ext_iff]

end

instance valDecEq : DecidableEq Val := fun a b => decidable_of_iff (valBeq a b = true) (valBeq_iff a b)

/-- Python `d.get(k)` / `d[k]` key lookup on a JSON object. -/
def objGet : Obj → String → Option Val
  | [], _ => none
  | (k, v) :: rest, key => if k = key then some v else objGet rest key

/-- Python `d[k] = v`: replace the value of an existing key in place, or
append a fresh key at the end. -/
def objSet : Obj → String → Val → Obj
  | [], key, val => [(key, val)]
  | (k, v) :: rest, key, val =>
    if k = key then (k, val) :: rest else (k, v) :: objSet rest key val

/-- Python `{**a, **b}`: the shallow top-level merge used by the KIBA
patch handler — every key of `b` overwrites the corresponding key of `a`. -/
def objMerge (a b : Obj) : Obj := b.foldl (fun acc kv => objSet acc kv.1 kv.2) a

/-- Python `d.get(k)` where an absent key yields `None`. -/
def pyGetV (o : Obj) (k : String) : Val := (objGet o k).getD .null

/-- Python truthiness of a JSON value. -/
def pyTruthy : Val → Bool
  | .null => false
  | .bool b => b
  | .num n => n != 0
  | .str s => s != ""
  | .arr xs => !xs.isEmpty
  | .obj fs => !fs.isEmpty

/-- Python `a or b`. -/
def pyOr (a b : Val) : Val := if pyTruthy a then a else b

/-- Python `len(v)` — defined for sized values, `None` models a raised
`TypeError`. -/
def pyLen : Val → Option Nat
  | .arr xs => some xs.length
  | .str s => some s.length
  | .obj fs => some fs.length
  | _ => none

/-- Python `int(v)` — `None` models a raised conversion error. -/
def pyIntOfVal : Val → Option Int
  | .num n => some n
  | .bool b => some (if b then 1 else 0)
  | .str s => s.toInt?
  | _ => none

/-- `int(session.get("version", 1))`, shared by every KIBA mutation. -/
def getVersionInt (session : Obj) : Option Int :=
  match objGet session "version" with
  | none => some 1
  | some v => pyIntOfVal v

theorem objGet_objSet_self (o : Obj) (k : String) (v : Val) :
    objGet (objSet o k v) k = some v := by
  induction o with
  | nil => simp [objSet, objGet]
  | cons kv rest ih =>
    by_cases h : kv.1 = k
    · simp [objSet, objGet, h]
    · simp [objSet, objGet, h, ih]

theorem objGet_objSet_ne (o : Obj) (k k' : String) (v : Val) (h : k ≠ k') :
    objGet (objSet o k v) k' = objGet o k' := by
  induction o with
  | nil => simp [objSet, objGet, h]
  | cons kv rest ih =>
    by_cases hk : kv.1 = k
    · simp [objSet, objGet, hk, h]
    · simp only [objSet, hk, if_false]
      by_cases hk' : kv.1 = k'
      · simp [objGet, hk']
      · simp [objGet, hk', ih]

theorem objGet_objMerge_notMem (a b : Obj) (k : String)
    (h : ∀ kv ∈ b, kv.1 ≠ k) :
    objGet (objMerge a b) k = objGet a k := by
  induction b generalizing a with
  | nil => simp [objMerge]
  | cons kv rest ih =>
    have hkv : kv.1 ≠ k := h kv (List.mem_cons_self kv rest)
    have hrest : ∀ kv' ∈ rest, kv'.1 ≠ k := fun kv' hm => h kv' (List.mem_cons_of_mem kv hm)
    show objGet (objMerge (objSet a kv.1 kv.2) rest) k = objGet a k
    rw [ih (objSet a kv.1 kv.2) hrest]
    exact objGet_objSet_ne a kv.1 k kv.2 hkv

theorem objGet_none_forall (o : Obj) (k : String) (h : objGet o k = none) :
    ∀ kv ∈ o, kv.1 ≠ k := by
  induction o with
  | nil => simp
  | cons kv rest ih =>
    intro kv' hm
    rcases List.mem_cons.mp hm with hh | hh
    · subst hh
      intro heq
      rw [objGet, if_pos heq] at h
      cases h
    · by_cases hk : kv.1 = k
      · rw [objGet, if_pos hk] at h; cases h
      · rw [objGet, if_neg hk] at h
        exact ih h kv' hh

theorem objFilter_eq_self (o : Obj) (k : String) (h : ∀ kv ∈ o, kv.1 ≠ k) :
    o.filter (fun kv => kv.1 ≠ k) = o := by
  induction o with
  | nil => rfl
  | cons kv rest ih =>
    have h1 : kv.1 ≠ k := h kv (List.mem_cons_self kv rest)
    have h2 := ih (fun kv' hm => h kv' (List.mem_cons_of_mem kv hm))
    rw [List.filter_cons, if_pos (by simpa using h1), h2]

theorem objSet_of_get_none (o : Obj) (k : String) (v : Val) (h : objGet o k = none) :
    objSet o k v = o ++ [(k, v)] := by
  induction o with
  | nil => rfl
  | cons kv rest ih =>
    by_cases hk : kv.1 = k
    · rw [objGet, if_pos hk] at h; cases h
    · rw [objGet, if_neg hk] at h
      simp [objSet, hk, ih h]

theorem pyOr_arr (xs : List Val) : pyOr (Val.arr xs) (Val.arr []) = Val.arr xs := by
  cases xs <;> simp [pyOr, pyTruthy]

theorem pyOr_obj (fs : Obj) : pyOr (Val.obj fs) (Val.obj []) = Val.obj fs := by
  cases fs <;> simp [pyOr, pyTruthy]

/-!
KIBA results-stack session endpoints (`src/backend/server.py`,
`_default_kiba_session` / `kiba_patch_session` / `kiba_create_run` /
`kiba_close_session`).  Each handler is modelled as a pure function of
the record currently stored under the session id (`pre`, `none` when the
store has no record) returning the HTTP response together with the
record stored afterwards.  `datetime.now().isoformat()` timestamps are
opaque inputs: `nowInit` stamps a freshly initialized default session,
`now` stamps the new audit entry.
-/

/-- `_default_kiba_session` (server.py:2119). -/
def default_kiba_session (session_id : String) (now : String) : Obj :=
  [("sessionId", .str session_id),
   ("status", .str "open"),
   ("currentStep", .str "request"),
   ("steps", .obj
      [("request", .obj []),
       ("vendorSearch", .obj [("runs", .arr []), ("activeRunId", .null)]),
       ("evaluation", .obj
          [("shortlistVendorIds", .arr []), ("notesByVendorId", .obj []),
           ("attachments", .arr [])]),
       ("selection", .obj
          [("selectedVendorId", .null), ("rationale", .null), ("terms", .null),
           ("totalAwardAmount", .null)])]),
   ("audit", .arr [.obj [("at", .str now), ("by", .str "system"), ("event", .str "session_init")]]),
   ("version", .num 1)]

/-- Response of a KIBA endpoint: a 200 echoing the stored session, an
error `JSONResponse` with its status code and JSON body, or a 500 from
the handler's catch-all `except` (whose body carries the exception text,
which is not modelled). -/
inductive KibaResp where
  | ok (session : Obj)
  | err (status : Nat) (body : Obj)
  | serverError

/-- The audit entry appended by `kiba_patch_session`:
`{"at": now, "by": "user", "event": "patch", "payload": list(patch.keys())}`. -/
def patchAuditEntry (now : String) (patch : Obj) : Val :=
  .obj [("at", .str now), ("by", .str "user"), ("event", .str "patch"),
        ("payload", .arr (patch.map (fun kv => .str kv.1)))]

/-- `updated.setdefault("audit", []).append(entry)`: insert an empty list
when the key is absent, then append.  `none` models the `AttributeError`
raised when the existing value is not a list. -/
def appendAudit (o : Obj) (entry : Val) : Option Obj :=
  match objGet o "audit" with
  | none => some (objSet o "audit" (.arr [entry]))
  | some (.arr xs) => some (objSet o "audit" (.arr (xs ++ [entry])))
  | some _ => none

/-- `kiba_patch_session` (server.py:2145-2174).  JSON `null` deserializes
to Python `None`, so a body key `"version": null` passes the
`client_version is not None` guard as if the key were omitted. -/
def kiba_patch_session (session_id : String) (pre : Option Obj)
    (nowInit now : String) (body : Obj) : KibaResp × Option Obj :=
  let clientVersion : Option Val :=
    match objGet body "version" with
    | some .null => none
    | v => v
  let patch : Obj := body.filter (fun kv => kv.1 ≠ "version")
  let session : Obj := pre.getD (default_kiba_session session_id nowInit)
  let proceed : KibaResp × Option Obj :=
    match getVersionInt session with
    | none => (.serverError, pre)
    | some v =>
      let updated := objSet (objMerge session patch) "version" (.num (v + 1))
      match appendAudit updated (patchAuditEntry now patch) with
      | none => (.serverError, pre)
      | some u => (.ok u, some u)
  match clientVersion with
  | some cv =>
    if valBeq cv (pyGetV session "version") then proceed
    else (.err 409 [("error", .str "version_conflict"), ("serverVersion", pyGetV session "version")], pre)
  | none => proceed

/-- The audit entry appended by `kiba_create_run`. -/
def runAuditEntry (now : String) (run : Obj) : Val :=
  .obj [("at", .str now), ("by", .str "user"), ("event", .str "run_created"),
        ("payload", .obj [("runId", pyGetV run "runId")])]

/-- `kiba_create_run` (server.py:2177-2205). -/
def kiba_create_run (session_id : String) (pre : Option Obj)
    (nowInit now : String) (body : Obj) : KibaResp × Option Obj :=
  match pyOr (pyGetV body "run") (.obj []) with
  | .obj run =>
    let session : Obj := pre.getD (default_kiba_session session_id nowInit)
    match objGet session "steps" with
    | some (.obj steps) =>
      match objGet steps "vendorSearch" with
      | some (.obj vs) =>
        match pyOr (pyGetV vs "runs") (.arr []) with
        | .arr runs0 =>
          let vs2 := objSet (objSet vs "runs" (.arr (runs0 ++ [.obj run])))
            "activeRunId" (pyGetV run "runId")
          let steps2 := objSet steps "vendorSearch" (.obj vs2)
          let session2 := objSet session "steps" (.obj steps2)
          match getVersionInt session2 with
          | none => (.serverError, pre)
          | some v =>
            let session3 := objSet session2 "version" (.num (v + 1))
            match appendAudit session3 (runAuditEntry now run) with
            | none => (.serverError, pre)
            | some u => (.ok u, some u)
        | _ => (.serverError, pre)
      | _ => (.serverError, pre)
    | _ => (.serverError, pre)
  | _ => (.err 400 [("error", .str "invalid_run")], pre)

/-- The audit entry appended by `kiba_close_session`. -/
def closeAuditEntry (now : String) : Val :=
  .obj [("at", .str now), ("by", .str "user"), ("event", .str "closed")]

/-- The generator expression of server.py:2226:
`next((r.get("vendorsSnapshot") for r in runs if r.get("runId") == active), dflt)`
with `dflt` the empty snapshot.  `none` models the `AttributeError`
raised when an element examined before the first match is not a dict. -/
def firstSnapshot : List Val → Val → Option Val
  | [], _ => some (.obj [])
  | r :: rest, active =>
    match r with
    | .obj fields =>
      if valBeq (pyGetV fields "runId") active
      then some (pyGetV fields "vendorsSnapshot")
      else firstSnapshot rest active
    | _ => none

/-- `kiba_close_session` (server.py:2208-2241).  The Python handler
deep-copies the session before mutating it; the model is pure, so the
copy is implicit. -/
def kiba_close_session (pre : Option Obj) (now : String) : KibaResp × Option Obj :=
  match pre with
  | none => (.err 404 [("error", .str "not_found")], none)
  | some session =>
    match objGet session "steps" with
    | some (.obj steps) =>
      match objGet steps "vendorSearch", objGet steps "evaluation", objGet steps "selection" with
      | some (.obj vs), some (.obj ev), some (.obj sel) =>
        let runsV := pyOr (pyGetV vs "runs") (.arr [])
        let shortV := pyOr (pyGetV ev "shortlistVendorIds") (.arr [])
        let selected := pyGetV sel "selectedVendorId"
        match pyLen runsV, pyLen shortV with
        | some nRuns, some nShort =>
          if nRuns < 1 || nShort < 1 || !pyTruthy selected
          then (.err 400 [("error", .str "validation_failed")], pre)
          else
            match runsV with
            | .arr runsList =>
              match firstSnapshot runsList (pyGetV vs "activeRunId") with
              | some snap =>
                let finalV : Val := .obj
                  [("activeRunId", pyGetV vs "activeRunId"),
                   ("vendorsSnapshot", snap),
                   ("selection", .obj sel),
                   ("steps", .obj steps)]
                let session3 := objSet (objSet session "status" (.str "closed")) "final" finalV
                match getVersionInt session3 with
                | none => (.serverError, pre)
                | some v =>
                  let session4 := objSet session3 "version" (.num (v + 1))
                  match appendAudit session4 (closeAuditEntry now) with
                  | none => (.serverError, pre)
                  | some u => (.ok u, some u)
              | none => (.serverError, pre)
            | _ => (.serverError, pre)
        | _, _ => (.serverError, pre)
      | _, _, _ => (.serverError, pre)
    | _ => (.serverError, pre)

/-- Observer: the `steps.vendorSearch.runs` sequence of a session. -/
def sessionRuns (s : Obj) : Option (List Val) :=
  match objGet s "steps" with
  | some (.obj steps) =>
    match objGet steps "vendorSearch" with
    | some (.obj vs) =>
      match objGet vs "runs" with
      | some (.arr xs) => some xs
      | _ => none
    | _ => none
  | _ => none

/-- Observer: the audit sequence of a session. -/
def sessionAudit (s : Obj) : Option (List Val) :=
  match objGet s "audit" with
  | some (.arr xs) => some xs
  | _ => none

/-- Observer: whether a KIBA response is the 200 success case. -/
def kibaOk : KibaResp → Bool
  | .ok _ => true
  | _ => false

/-- Iterated `kiba_create_run`: append each run in order through the
endpoint, following the stored record; `none` if any call fails. -/
def appendMany (session_id nowInit now : String) (s : Obj) : List Obj → Option Obj
  | [] => some s
  | r :: rest =>
    match kiba_create_run session_id (some s) nowInit now [("run", .obj r)] with
    | (KibaResp.ok u, _) => appendMany session_id nowInit now u rest
    | _ => none

/-!
KPA One-Flow intake endpoints (`src/backend/server.py`,
`intake_recommendations` / `submit_followups` / `patch_answers`) and the
intake collaborator `run_intake`
(`src/backend/services/procurement_intake.py`).  The LLM call is an
external collaborator: its outcome is an explicit input
(`CollabOutcome`).  Budgets are Python floats used only in sign
comparisons and string interpolation, modelled as integers.
-/

/-- Outcome of the external recommendation collaborator inside
`run_intake`: the OpenAI client is `None`; any downstream call raised;
or a response whose JSON content parsed to `some` object (`none` when
the content was empty or unparseable, which raises and is caught). -/
inductive CollabOutcome where
  | unavailable
  | exc
  | parsed (content : Option Obj)

/-- The fallback question list returned when the OpenAI client is
unavailable (procurement_intake.py:35-40). -/
def fallbackQuestionsUnavailable (product_name : String) : List Val :=
  [.str ("What specific tasks will " ++ product_name ++ " be used for?"),
   .str "What are your performance requirements?",
   .str "Do you have any compliance requirements?",
   .str "What is your preferred delivery timeline?"]

/-- The fallback question list returned when any downstream step raised
(procurement_intake.py:89-95). -/
def fallbackQuestionsError (product_name : String) : List Val :=
  [.str ("What specific tasks will " ++ product_name ++ " be used for?"),
   .str "What are your performance requirements?",
   .str "Do you have any compliance or security requirements?",
   .str "What is your preferred delivery timeline?",
   .str "Do you need any special features or capabilities?"]

/-- Fallback intake result for an unavailable client
(procurement_intake.py:32-41).  Python interpolates the float budget;
number formatting is modelled as `toString` of the integer. -/
def fallbackIntakeUnavailable (product_name : String) (budget quantity : Int) : Obj :=
  [("status", .str "questions"),
   ("requirements_summary", .str ("Requirements for " ++ product_name ++ " ($" ++
      toString budget ++ " budget, qty: " ++ toString quantity ++ ")")),
   ("missing_info_questions", .arr (fallbackQuestionsUnavailable product_name))]

/-- Fallback intake result for a raised downstream error
(procurement_intake.py:86-96; the Python format spec adds thousands
separators, modelled as plain `toString`). -/
def fallbackIntakeError (product_name : String) (budget quantity : Int) : Obj :=
  [("status", .str "questions"),
   ("requirements_summary", .str ("Requirements for " ++ product_name ++ " ($" ++
      toString budget ++ " budget, qty: " ++ toString quantity ++ ")")),
   ("missing_info_questions", .arr (fallbackQuestionsError product_name))]

/-- `run_intake` (procurement_intake.py:15-96).  Every exception in the
body is caught by the enclosing `except`, which returns the error
fallback; a parsed result missing `status` or `requirements_summary`
raises `ValueError` and is likewise caught. -/
def run_intake (product_name : String) (budget quantity : Int)
    (scope_text : String) (collab : CollabOutcome) : Obj :=
  match collab with
  | .unavailable => fallbackIntakeUnavailable product_name budget quantity
  | .exc => fallbackIntakeError product_name budget quantity
  | .parsed none => fallbackIntakeError product_name budget quantity
  | .parsed (some result) =>
    if (objGet result "status").isSome && (objGet result "requirements_summary").isSome
    then result
    else fallbackIntakeError product_name budget quantity

/-- Python `set(...)` of a list, as a duplicate-free list in first
occurrence order (set iteration order is arbitrary in Python; every
modelled property of these sets is membership-only). -/
def insertVal (acc : List Val) (x : Val) : List Val :=
  if acc.any (fun y => valBeq y x) then acc else acc ++ [x]

def pySetVals (xs : List Val) : List Val := xs.foldl insertVal []

/-- Python `s.union(xs)` for a set `s`. -/
def pyUnionVals (s xs : List Val) : List Val := xs.foldl insertVal s

/-- Python `x in s` membership via `==`. -/
def valMem (x : Val) (xs : List Val) : Bool := xs.any (fun y => valBeq y x)

/-- Response of a KPA endpoint: a 200 with its JSON body together with
the session record stored by the call, a raised `HTTPException` with
status and detail, or an uncaught-exception 500. -/
inductive KpaResp where
  | ok (response : Obj) (stored : Obj)
  | httpError (status : Nat) (detail : String)
  | serverError

/-- Python `str.strip()`: drop leading and trailing whitespace.  Defined
by structural recursion over the character list so that it evaluates on
concrete inputs. -/
def pyStrip (s : String) : String :=
  String.mk (((s.data.dropWhile Char.isWhitespace).reverse.dropWhile
    Char.isWhitespace).reverse)

/-- `int(body.get("quantity") or 1)`: a missing quantity defaults to 1,
and a supplied `0` is falsy in Python so it too becomes 1. -/
def extractQty : Option Int → Int
  | none => 1
  | some q => if q = 0 then 1 else q

/-- `intake_recommendations` (server.py:1429-1503).  Field extraction:
`(body.get("product_name") or "").strip()`,
`float(body.get("budget_usd") or 0)`, `int(body.get("quantity") or 1)` —
note that a supplied `0` is falsy in Python, so `quantity = 0` silently
becomes the default `1`.  `scope` is the output of `normalize_scope`
(out-of-scope collaborator), `ts` the `time.time()` stamp, and `prev`
the record currently stored for the session id (`none` when absent or
expired). -/
def intake_recommendations (product_name_in : Option String)
    (budget_usd_in : Option Int) (quantity_in : Option Int) (scope : String)
    (collab : CollabOutcome) (session_id : String) (prev : Option Obj)
    (ts : Int) : KpaResp :=
  let product_name := pyStrip (product_name_in.getD "")
  let budget_usd : Int := budget_usd_in.getD 0
  let quantity : Int := extractQty quantity_in
  if product_name = "" then .httpError 400 "product_name is required"
  else if quantity < 1 then .httpError 400 "quantity must be >= 1"
  else if budget_usd < 0 then .httpError 400 "budget_usd must be >= 0"
  else
    let intake0 := run_intake product_name budget_usd quantity scope collab
    let prevS : Obj := prev.getD []
    match pyOr (pyGetV prevS "asked_questions") (.arr []) with
    | .arr askedRaw =>
      let asked := pySetVals askedRaw
      match pyOr (pyGetV intake0 "missing_info_questions") (.arr []) with
      | .arr cand =>
        let newQuestions := cand.filter (fun q => !valMem q asked)
        let intake1 := objSet intake0 "missing_info_questions" (.arr newQuestions)
        let session_data : Obj :=
          [("product_name", .str product_name),
           ("budget_usd", .num budget_usd),
           ("quantity", .num quantity),
           ("scope_text", .str scope),
           ("intake_result", .obj intake1),
           ("answers", pyOr (pyGetV prevS "answers") (.obj [])),
           ("asked_questions", .arr (pyUnionVals asked newQuestions)),
           ("ts", .num ts)]
        .ok [("session_id", .str session_id), ("intake", .obj intake1)] session_data
      | _ => .serverError
    | _ => .serverError

/-- `submit_followups` (server.py:1506-1557). -/
def submit_followups (session_id_in : Option String) (prev : Option Obj)
    (followup_answers_in : Option Val) (ts : Int) : KpaResp :=
  match session_id_in with
  | none => .httpError 400 "session_id is required"
  | some session_id =>
    if session_id = "" then .httpError 400 "session_id is required"
    else
      match prev with
      | none => .httpError 400 "Invalid or expired session_id"
      | some session =>
        match pyOr (followup_answers_in.getD .null) (.obj []),
              pyOr (pyGetV session "answers") (.obj []) with
        | .obj newAnswers, .obj oldAnswers =>
          let merged := objMerge oldAnswers newAnswers
          let stored := objSet (objSet session "answers" (.obj merged)) "ts" (.num ts)
          .ok [("session_id", .str session_id),
               ("answers", .obj merged),
               ("message", .str "Answers saved successfully. Ready to generate project summary.")]
            stored
        | _, _ => .serverError

/-- `patch_answers` (server.py:1578-1611). -/
def patch_answers (session_id : String) (prev : Option Obj)
    (followup_answers_in : Option Val) (ts : Int) : KpaResp :=
  match prev with
  | none => .httpError 404 "Session not found or expired"
  | some session =>
    match pyOr (followup_answers_in.getD .null) (.obj []),
          pyOr (pyGetV session "answers") (.obj []) with
    | .obj updates, .obj oldAnswers =>
      let merged := objMerge oldAnswers updates
      let stored := objSet (objSet session "answers" (.obj merged)) "ts" (.num ts)
      .ok [("session_id", .str session_id),
           ("answers", .obj merged),
           ("version", pyOr (pyGetV stored "version") (.num 0))]
        stored
    | _, _ => .serverError

/-- Observer: whether a KPA response is the 200 success case. -/
def kpaOk : KpaResp → Bool
  | .ok _ _ => true
  | _ => false

/-!
The TTL session store.

Modelled from the spec: `SessionStore` is imported in
`src/backend/server.py` from `utils.store`, a module that is not part of
the source tree; only its constructor calls
(`SessionStore(ttl_seconds=60*30)`, `SessionStore(ttl_seconds=None)`)
and its `get`/`set` call sites appear.  The model follows spec §4.1: a
keyed in-memory store; `set` unconditionally overwrites, stamping a
fresh last-write time; `get` fails closed — when the record's expiry
(last-write time plus the configured TTL) has passed it is treated as
absent and dropped; a store configured with TTL `none` never expires
records.  Time is an explicit `Nat` parameter.
-/

/-- Modelled from the spec: the keyed TTL store state
(`utils.store.SessionStore`, not in the source tree). -/
structure SessionStore where
  ttl_seconds : Option Nat
  entries : List (String × Nat × Obj)

def storeLookup : List (String × Nat × Obj) → String → Option (Nat × Obj)
  | [], _ => none
  | (k, e) :: rest, key => if k = key then some e else storeLookup rest key

def storeRemove : List (String × Nat × Obj) → String → List (String × Nat × Obj)
  | [], _ => []
  | (k, e) :: rest, key =>
    if k = key then storeRemove rest key else (k, e) :: storeRemove rest key

/-- Modelled from the spec: `set` unconditionally overwrites, stamping
the last-write time. -/
def SessionStore.set (st : SessionStore) (now : Nat) (key : String) (payload : Obj) :
    SessionStore :=
  { st with entries := (key, now, payload) :: storeRemove st.entries key }

/-- Modelled from the spec: `get` returns the payload, or treats the
record as absent and drops it when its expiry has passed; with TTL
`none` records never expire. -/
def SessionStore.get (st : SessionStore) (now : Nat) (key : String) :
    Option Obj × SessionStore :=
  match storeLookup st.entries key with
  | none => (none, st)
  | some (w, p) =>
    match st.ttl_seconds with
    | none => (some p, st)
    | some ttl =>
      if w + ttl < now then (none, { st with entries := storeRemove st.entries key })
      else (some p, st)

/-- A client-visible store operation with its wall-clock instant. -/
inductive StoreOp where
  | setOp (now : Nat) (key : String) (payload : Obj)
  | getOp (now : Nat) (key : String)

def applyOp (st : SessionStore) : StoreOp → SessionStore
  | .setOp now key payload => st.set now key payload
  | .getOp now key => (st.get now key).2

def runOps (st : SessionStore) : List StoreOp → SessionStore
  | [] => st
  | op :: rest => runOps (applyOp st op) rest

/-- The payload a single operation writes for `key`, if any. -/
def lastSetStep (op : StoreOp) (key : String) : Option Obj :=
  match op with
  | .setOp _ k v => if k = key then some v else none
  | .getOp _ _ => none

/-- The payload written by the last `set` for `key` in `ops`, if any. -/
def lastSet : List StoreOp → String → Option Obj
  | [], _ => none
  | op :: rest, key =>
    match lastSet rest key with
    | some v => some v
    | none => lastSetStep op key

/-!
Characterization lemmas for the KIBA handlers on well-formed sessions.
-/

theorem appendAudit_arr (o : Obj) (e : Val) (xs : List Val)
    (h : objGet o "audit" = some (.arr xs)) :
    appendAudit o e = some (objSet o "audit" (.arr (xs ++ [e]))) := by
  rw [appendAudit, h]

theorem appendAudit_some_shape (o : Obj) (e : Val) (u : Obj)
    (h : appendAudit o e = some u) : ∃ x, u = objSet o "audit" x := by
  rw [appendAudit] at h
  rcases hg : objGet o "audit" with _ | w
  · rw [hg] at h
    exact ⟨_, (Option.some_injective _ h).symm⟩
  · rw [hg] at h
    cases w with
    | arr xs => exact ⟨_, (Option.some_injective _ h).symm⟩
    | null => cases h
    | bool _ => cases h
    | num _ => cases h
    | str _ => cases h
    | obj _ => cases h

theorem kiba_patch_ok_char (sid nowInit now : String) (s body : Obj) (v : Int)
    (axs : List Val)
    (hv : objGet s "version" = some (.num v))
    (hnov : objGet body "version" = none)
    (hnoa : ∀ kv ∈ body, kv.1 ≠ "audit")
    (haud : objGet s "audit" = some (.arr axs)) :
    kiba_patch_session sid (some s) nowInit now body =
      (KibaResp.ok (objSet (objSet (objMerge s body) "version" (.num (v + 1)))
          "audit" (.arr (axs ++ [patchAuditEntry now body]))),
       some (objSet (objSet (objMerge s body) "version" (.num (v + 1)))
          "audit" (.arr (axs ++ [patchAuditEntry now body])))) := by
  have hfilter : body.filter (fun kv => kv.1 ≠ "version") = body :=
    objFilter_eq_self body "version" (objGet_none_forall body "version" hnov)
  have hupdaud : objGet (objSet (objMerge s body) "version" (.num (v + 1))) "audit"
      = some (.arr axs) := by
    rw [objGet_objSet_ne _ _ _ _ (by decide)]
    rw [objGet_objMerge_notMem s body "audit" hnoa]
    exact haud
  simp only [kiba_patch_session, hnov, hfilter, Option.getD_some, getVersionInt, hv, pyIntOfVal]
  rw [appendAudit_arr _ _ _ hupdaud]

theorem sessionRuns_of_gets (u steps2 vs2 : Obj) (xs2 : List Val)
    (h1 : objGet u "steps" = some (.obj steps2))
    (h2 : objGet steps2 "vendorSearch" = some (.obj vs2))
    (h3 : objGet vs2 "runs" = some (.arr xs2)) : sessionRuns u = some xs2 := by
  simp only [sessionRuns, h1, h2, h3]

theorem kiba_create_run_ok (sid nowInit now : String) (s steps vs : Obj)
    (xs axs : List Val) (v : Int) (r : Obj)
    (hsteps : objGet s "steps" = some (.obj steps))
    (hvs : objGet steps "vendorSearch" = some (.obj vs))
    (hruns : objGet vs "runs" = some (.arr xs))
    (hv : objGet s "version" = some (.num v))
    (haud : objGet s "audit" = some (.arr axs)) :
    ∃ u, kiba_create_run sid (some s) nowInit now [("run", .obj r)] = (KibaResp.ok u, some u)
      ∧ objGet u "version" = some (.num (v + 1))
      ∧ objGet u "audit" = some (.arr (axs ++ [runAuditEntry now r]))
      ∧ (∃ steps2 vs2, objGet u "steps" = some (.obj steps2)
          ∧ objGet steps2 "vendorSearch" = some (.obj vs2)
          ∧ objGet vs2 "runs" = some (.arr (xs ++ [.obj r]))
          ∧ objGet vs2 "activeRunId" = some (pyGetV r "runId")
          ∧ objGet steps2 "evaluation" = objGet steps "evaluation"
          ∧ objGet steps2 "selection" = objGet steps "selection")
      ∧ objGet u "status" = objGet s "status"
      ∧ sessionRuns u = some (xs ++ [.obj r]) := by
  have hrun : pyGetV [("run", Val.obj r)] "run" = Val.obj r := rfl
  have hpyruns : pyGetV vs "runs" = Val.arr xs := by
    rw [pyGetV, hruns]; rfl
  refine ⟨objSet (objSet (objSet s "steps"
      (.obj (objSet steps "vendorSearch" (.obj (objSet (objSet vs "runs"
        (.arr (xs ++ [.obj r]))) "activeRunId" (pyGetV r "runId"))))))
      "version" (.num (v + 1)))
      "audit" (.arr (axs ++ [runAuditEntry now r])), ?_, ?_, ?_, ?_, ?_, ?_⟩
  · have hv2 : objGet (objSet s "steps"
        (.obj (objSet steps "vendorSearch" (.obj (objSet (objSet vs "runs"
          (.arr (xs ++ [.obj r]))) "activeRunId" (pyGetV r "runId")))))) "version"
        = some (.num v) := by
      rw [objGet_objSet_ne _ _ _ _ (by decide)]; exact hv
    have haud3 : objGet (objSet (objSet s "steps"
        (.obj (objSet steps "vendorSearch" (.obj (objSet (objSet vs "runs"
          (.arr (xs ++ [.obj r]))) "activeRunId" (pyGetV r "runId"))))))
        "version" (.num (v + 1))) "audit" = some (.arr axs) := by
      rw [objGet_objSet_ne _ _ _ _ (by decide)]
      rw [objGet_objSet_ne _ _ _ _ (by decide)]
      exact haud
    simp only [kiba_create_run, hrun, pyOr_obj, Option.getD_some, hsteps, hvs,
      hpyruns, pyOr_arr, getVersionInt, hv2, pyIntOfVal]
    rw [appendAudit_arr _ _ _ haud3]
  · rw [objGet_objSet_ne _ _ _ _ (by decide)]
    exact objGet_objSet_self _ _ _
  · exact objGet_objSet_self _ _ _
  · refine ⟨objSet steps "vendorSearch" (.obj (objSet (objSet vs "runs"
        (.arr (xs ++ [.obj r]))) "activeRunId" (pyGetV r "runId"))),
      objSet (objSet vs "runs" (.arr (xs ++ [.obj r]))) "activeRunId" (pyGetV r "runId"),
      ?_, ?_, ?_, ?_, ?_, ?_⟩
    · rw [objGet_objSet_ne _ _ _ _ (by decide)]
      rw [objGet_objSet_ne _ _ _ _ (by decide)]
      exact objGet_objSet_self _ _ _
    · exact objGet_objSet_self _ _ _
    · rw [objGet_objSet_ne _ _ _ _ (by decide)]
      exact objGet_objSet_self _ _ _
    · exact objGet_objSet_self _ _ _
    · exact objGet_objSet_ne _ _ _ _ (by decide)
    · exact objGet_objSet_ne _ _ _ _ (by decide)
  · rw [objGet_objSet_ne _ _ _ _ (by decide)]
    rw [objGet_objSet_ne _ _ _ _ (by decide)]
    exact objGet_objSet_ne _ _ _ _ (by decide)
  · refine sessionRuns_of_gets _
      (objSet steps "vendorSearch" (.obj (objSet (objSet vs "runs"
        (.arr (xs ++ [.obj r]))) "activeRunId" (pyGetV r "runId"))))
      (objSet (objSet vs "runs" (.arr (xs ++ [.obj r]))) "activeRunId" (pyGetV r "runId"))
      _ ?_ ?_ ?_
    · rw [objGet_objSet_ne _ _ _ _ (by decide)]
      rw [objGet_objSet_ne _ _ _ _ (by decide)]
      exact objGet_objSet_self _ _ _
    · exact objGet_objSet_self _ _ _
    · rw [objGet_objSet_ne _ _ _ _ (by decide)]
      exact objGet_objSet_self _ _ _

theorem kiba_close_ok (now : String) (s steps vs ev sel : Obj)
    (xs ss axs : List Val) (v : Int) (snap : Val)
    (hsteps : objGet s "steps" = some (.obj steps))
    (hvs : objGet steps "vendorSearch" = some (.obj vs))
    (hev : objGet steps "evaluation" = some (.obj ev))
    (hsel : objGet steps "selection" = some (.obj sel))
    (hruns : objGet vs "runs" = some (.arr xs))
    (hshort : objGet ev "shortlistVendorIds" = some (.arr ss))
    (hxs : xs ≠ [])
    (hss : ss ≠ [])
    (hselok : pyTruthy (pyGetV sel "selectedVendorId") = true)
    (hsnap : firstSnapshot xs (pyGetV vs "activeRunId") = some snap)
    (hv : objGet s "version" = some (.num v))
    (haud : objGet s "audit" = some (.arr axs)) :
    ∃ u, kiba_close_session (some s) now = (KibaResp.ok u, some u)
      ∧ objGet u "status" = some (.str "closed")
      ∧ objGet u "version" = some (.num (v + 1))
      ∧ objGet u "audit" = some (.arr (axs ++ [closeAuditEntry now]))
      ∧ objGet u "final" = some (.obj
          [("activeRunId", pyGetV vs "activeRunId"),
           ("vendorsSnapshot", snap),
           ("selection", .obj sel),
           ("steps", .obj steps)])
      ∧ objGet u "steps" = some (.obj steps) := by
  have hpyruns : pyGetV vs "runs" = Val.arr xs := by rw [pyGetV, hruns]; rfl
  have hpyshort : pyGetV ev "shortlistVendorIds" = Val.arr ss := by rw [pyGetV, hshort]; rfl
  have hc1 : (decide (xs.length < 1)) = false := by
    simp [Nat.lt_one_iff, List.length_eq_zero, hxs]
  have hc2 : (decide (ss.length < 1)) = false := by
    simp [Nat.lt_one_iff, List.length_eq_zero, hss]
  refine ⟨objSet (objSet (objSet (objSet s "status" (.str "closed")) "final"
      (.obj [("activeRunId", pyGetV vs "activeRunId"), ("vendorsSnapshot", snap),
             ("selection", .obj sel), ("steps", .obj steps)]))
      "version" (.num (v + 1)))
      "audit" (.arr (axs ++ [closeAuditEntry now])), ?_, ?_, ?_, ?_, ?_, ?_⟩
  · have hv3 : objGet (objSet (objSet s "status" (.str "closed")) "final"
        (.obj [("activeRunId", pyGetV vs "activeRunId"), ("vendorsSnapshot", snap),
               ("selection", .obj sel), ("steps", .obj steps)])) "version"
        = some (.num v) := by
      rw [objGet_objSet_ne _ _ _ _ (by decide)]
      rw [objGet_objSet_ne _ _ _ _ (by decide)]
      exact hv
    have haud4 : objGet (objSet (objSet (objSet s "status" (.str "closed")) "final"
        (.obj [("activeRunId", pyGetV vs "activeRunId"), ("vendorsSnapshot", snap),
               ("selection", .obj sel), ("steps", .obj steps)]))
        "version" (.num (v + 1))) "audit" = some (.arr axs) := by
      rw [objGet_objSet_ne _ _ _ _ (by decide)]
      rw [objGet_objSet_ne _ _ _ _ (by decide)]
      rw [objGet_objSet_ne _ _ _ _ (by decide)]
      exact haud
    simp only [kiba_close_session, hsteps, hvs, hev, hsel, hpyruns, hpyshort,
      pyOr_arr, pyLen, hc1, hc2, hselok, Bool.not_true, Bool.or_self,
      Bool.or_false, Bool.false_or, if_false, hsnap, getVersionInt, hv3,
      pyIntOfVal]
    rw [appendAudit_arr _ _ _ haud4]
    simp
  · rw [objGet_objSet_ne _ _ _ _ (by decide)]
    rw [objGet_objSet_ne _ _ _ _ (by decide)]
    rw [objGet_objSet_ne _ _ _ _ (by decide)]
    exact objGet_objSet_self _ _ _
  · rw [objGet_objSet_ne _ _ _ _ (by decide)]
    exact objGet_objSet_self _ _ _
  · exact objGet_objSet_self _ _ _
  · rw [objGet_objSet_ne _ _ _ _ (by decide)]
    rw [objGet_objSet_ne _ _ _ _ (by decide)]
    exact objGet_objSet_self _ _ _
  · rw [objGet_objSet_ne _ _ _ _ (by decide)]
    rw [objGet_objSet_ne _ _ _ _ (by decide)]
    rw [objGet_objSet_ne _ _ _ _ (by decide)]
    rw [objGet_objSet_ne _ _ _ _ (by decide)]
    exact hsteps

theorem kiba_close_precondition_failed (now : String) (s steps vs ev sel : Obj)
    (xs ss : List Val)
    (hsteps : objGet s "steps" = some (.obj steps))
    (hvs : objGet steps "vendorSearch" = some (.obj vs))
    (hev : objGet steps "evaluation" = some (.obj ev))
    (hsel : objGet steps "selection" = some (.obj sel))
    (hruns : objGet vs "runs" = some (.arr xs))
    (hshort : objGet ev "shortlistVendorIds" = some (.arr ss))
    (hfail : xs = [] ∨ ss = [] ∨ pyTruthy (pyGetV sel "selectedVendorId") = false) :
    kiba_close_session (some s) now =
      (KibaResp.err 400 [("error", .str "validation_failed")], some s) := by
  have hpyruns : pyGetV vs "runs" = Val.arr xs := by rw [pyGetV, hruns]; rfl
  have hpyshort : pyGetV ev "shortlistVendorIds" = Val.arr ss := by rw [pyGetV, hshort]; rfl
  have hcond : (decide (xs.length < 1) || decide (ss.length < 1)
      || !pyTruthy (pyGetV sel "selectedVendorId")) = true := by
    rcases hfail with h | h | h
    · subst h; simp
    · subst h; simp
    · rw [h]; simp
  simp only [kiba_close_session, hsteps, hvs, hev, hsel, hpyruns, hpyshort,
    pyOr_arr, pyLen, hcond, if_true]

theorem firstSnapshot_spec (xs : List Val) (active : Val)
    (hobj : ∀ x ∈ xs, ∃ f, x = Val.obj f) :
    ∃ snap, firstSnapshot xs active = some snap ∧
      ((∃ l1 f l2, xs = l1 ++ Val.obj f :: l2
          ∧ (∀ g, Val.obj g ∈ l1 → pyGetV g "runId" ≠ active)
          ∧ pyGetV f "runId" = active
          ∧ snap = pyGetV f "vendorsSnapshot")
       ∨ ((∀ f, Val.obj f ∈ xs → pyGetV f "runId" ≠ active) ∧ snap = Val.obj [])) := by
  induction xs with
  | nil =>
    refine ⟨.obj [], rfl, Or.inr ⟨?_, rfl⟩⟩
    intro f hf
    simp at hf
  | cons x rest ih =>
    obtain ⟨f, rfl⟩ := hobj x (List.mem_cons_self x rest)
    by_cases hmatch : pyGetV f "runId" = active
    · refine ⟨pyGetV f "vendorsSnapshot", ?_, Or.inl ⟨[], f, rest, ?_, ?_, hmatch, rfl⟩⟩
      · rw [firstSnapshot, if_pos ((valBeq_iff _ _).mpr hmatch)]
      · simp
      · intro g hg
        simp at hg
    · obtain ⟨snap, hsnap, hrest⟩ := ih (fun y hy => hobj y (List.mem_cons_of_mem _ hy))
      have hstep : firstSnapshot (Val.obj f :: rest) active = some snap := by
        rw [firstSnapshot, if_neg (fun hb => hmatch ((valBeq_iff _ _).mp hb))]
        exact hsnap
      rcases hrest with ⟨l1, g, l2, hsplit, hl1, hg, hs⟩ | ⟨hnone, hs⟩
      · refine ⟨snap, hstep, Or.inl ⟨Val.obj f :: l1, g, l2, ?_, ?_, hg, hs⟩⟩
        · rw [hsplit, List.cons_append]
        · intro g' hg'
          rcases List.mem_cons.mp hg' with hh | hh
          · injection hh with h9
            subst h9
            exact hmatch
          · exact hl1 g' hh
      · refine ⟨snap, hstep, Or.inr ⟨?_, hs⟩⟩
        intro g hg
        rcases List.mem_cons.mp hg with hh | hh
        · injection hh with h9
          subst h9
          exact hmatch
        · exact hnone g hh

theorem kiba_patch_ok_shape (sid nowInit now : String) (pre : Option Obj) (body u : Obj)
    (hok : (kiba_patch_session sid pre nowInit now body).1 = KibaResp.ok u) :
    ∃ nv x, u = objSet (objSet (objMerge (pre.getD (default_kiba_session sid nowInit))
      (body.filter (fun kv => kv.1 ≠ "version"))) "version" (.num nv)) "audit" x := by
  simp only [kiba_patch_session] at hok
  split at hok
  · split at hok
    · split at hok
      · simp at hok
      · next v hv =>
          split at hok
          · simp at hok
          · next u' hau =>
              obtain ⟨x, rfl⟩ := appendAudit_some_shape _ _ _ hau
              simp at hok
              subst hok
              exact ⟨v + 1, x, by simp [ne_eq]⟩
    · simp at hok
  · split at hok
    · simp at hok
    · next v hv =>
        split at hok
        · simp at hok
        · next u' hau =>
            obtain ⟨x, rfl⟩ := appendAudit_some_shape _ _ _ hau
            simp at hok
            subst hok
            exact ⟨v + 1, x, by simp [ne_eq]⟩

theorem sessionRuns_congr (u s : Obj) (h : objGet u "steps" = objGet s "steps") :
    sessionRuns u = sessionRuns s := by
  rw [sessionRuns, sessionRuns, h]

/-- A successful patch whose body has no top-level `steps` key leaves
`steps.vendorSearch.runs` untouched — whatever else the body contains. -/
theorem kiba_patch_preserves_runs (sid nowInit now : String) (s body u : Obj)
    (hnosteps : ∀ kv ∈ body, kv.1 ≠ "steps")
    (hok : (kiba_patch_session sid (some s) nowInit now body).1 = KibaResp.ok u) :
    sessionRuns u = sessionRuns s := by
  obtain ⟨nv, x, rfl⟩ := kiba_patch_ok_shape _ _ _ _ _ _ hok
  refine sessionRuns_congr _ _ ?_
  rw [objGet_objSet_ne _ _ _ _ (by decide)]
  rw [objGet_objSet_ne _ _ _ _ (by decide)]
  refine objGet_objMerge_notMem _ _ _ ?_
  intro kv hm
  exact hnosteps kv (List.mem_of_mem_filter hm)

theorem valMem_iff (x : Val) (xs : List Val) : valMem x xs = true ↔ x ∈ xs := by
  rw [valMem, List.any_eq_true]
  constructor
  · rintro ⟨y, hy, hb⟩
    rw [(valBeq_iff y x).mp hb] at hy
    exact hy
  · intro hx
    exact ⟨x, hx, (valBeq_iff x x).mpr rfl⟩

theorem mem_insertVal (x y : Val) (acc : List Val) :
    x ∈ insertVal acc y ↔ x ∈ acc ∨ x = y := by
  rw [insertVal]
  by_cases hy : (acc.any fun z => valBeq z y) = true
  · rw [if_pos hy]
    have hyy : y ∈ acc := (valMem_iff y acc).mp hy
    constructor
    · exact Or.inl
    · rintro (h | rfl)
      · exact h
      · exact hyy
  · rw [if_neg hy]
    simp

theorem mem_foldl_insertVal (x : Val) (xs acc : List Val) :
    x ∈ xs.foldl insertVal acc ↔ x ∈ acc ∨ x ∈ xs := by
  induction xs generalizing acc with
  | nil => simp
  | cons y rest ih =>
    rw [List.foldl_cons, ih, mem_insertVal]
    simp [or_assoc]

theorem mem_pySetVals (x : Val) (xs : List Val) : x ∈ pySetVals xs ↔ x ∈ xs := by
  rw [pySetVals, mem_foldl_insertVal]
  simp

theorem mem_pyUnionVals (x : Val) (s xs : List Val) :
    x ∈ pyUnionVals s xs ↔ x ∈ s ∨ x ∈ xs := by
  rw [pyUnionVals, mem_foldl_insertVal]

theorem valMem_pySetVals (x : Val) (xs : List Val) :
    valMem x (pySetVals xs) = decide (x ∈ xs) := by
  by_cases h : x ∈ xs
  · simp [h, (valMem_iff _ _).mpr ((mem_pySetVals x xs).mpr h)]
  · have h2 : ¬ x ∈ pySetVals xs := fun hm => h ((mem_pySetVals x xs).mp hm)
    have h3 : valMem x (pySetVals xs) = false := by
      cases hv : valMem x (pySetVals xs)
      · rfl
      · exact absurd ((valMem_iff _ _).mp hv) h2
    rw [h3]
    simp [h]

/-!
Store lemmas.
-/

theorem storeLookup_remove_self (es : List (String × Nat × Obj)) (k : String) :
    storeLookup (storeRemove es k) k = none := by
  induction es with
  | nil => rfl
  | cons e rest ih =>
    by_cases h : e.1 = k
    · simp [storeRemove, h, ih]
    · simp [storeRemove, storeLookup, h, ih]

theorem storeLookup_remove_ne (es : List (String × Nat × Obj)) (k k' : String)
    (h : k ≠ k') : storeLookup (storeRemove es k) k' = storeLookup es k' := by
  induction es with
  | nil => rfl
  | cons e rest ih =>
    obtain ⟨a, b⟩ := e
    by_cases hk : a = k
    · subst hk
      rw [storeRemove, if_pos rfl, ih, storeLookup, if_neg h]
    · rw [storeRemove, if_neg hk, storeLookup, storeLookup]
      by_cases hk' : a = k'
      · rw [if_pos hk', if_pos hk']
      · rw [if_neg hk', if_neg hk', ih]

theorem get_ttlNone_snd (st : SessionStore) (h : st.ttl_seconds = none)
    (now : Nat) (k : String) : (st.get now k).2 = st := by
  rw [SessionStore.get]
  rcases hl : storeLookup st.entries k with _ | e
  · rfl
  · rw [h]

theorem set_get_ttlNone (st : SessionStore) (h : st.ttl_seconds = none)
    (w now : Nat) (k' k : String) (v : Obj) :
    ((st.set w k' v).get now k).1 =
      if k' = k then some v else (st.get now k).1 := by
  rw [SessionStore.set, SessionStore.get]
  by_cases hk : k' = k
  · simp only [storeLookup, hk, if_true, h]
  · simp only [storeLookup, hk, if_false]
    rw [storeLookup_remove_ne _ _ _ hk]
    rw [SessionStore.get]
    rcases hl : storeLookup st.entries k with _ | e
    · rfl
    · rw [h]

theorem applyOp_ttl (st : SessionStore) (op : StoreOp) :
    (applyOp st op).ttl_seconds = st.ttl_seconds := by
  cases op with
  | setOp now k v => rfl
  | getOp now k =>
    rw [applyOp, SessionStore.get]
    rcases hl : storeLookup st.entries k with _ | e
    · rfl
    · obtain ⟨w, p⟩ := e
      rcases ht : st.ttl_seconds with _ | ttl
      · exact ht
      · by_cases hexp : w + ttl < now
        · simp [hexp, ht]
        · simp [hexp, ht]

theorem runOps_ttl (ops : List StoreOp) (st : SessionStore) :
    (runOps st ops).ttl_seconds = st.ttl_seconds := by
  induction ops generalizing st with
  | nil => rfl
  | cons op rest ih => rw [runOps, ih, applyOp_ttl]

theorem runOps_lastSet (k : String) (now : Nat) (ops : List StoreOp) :
    ∀ st : SessionStore, st.ttl_seconds = none →
      ((runOps st ops).get now k).1 =
        match lastSet ops k with
        | some v => some v
        | none => (st.get now k).1 := by
  induction ops with
  | nil => intro st h; rfl
  | cons op rest ih =>
    intro st h
    have httl : (applyOp st op).ttl_seconds = none := by rw [applyOp_ttl]; exact h
    rw [runOps, ih _ httl, lastSet]
    rcases hls : lastSet rest k with _ | v
    · cases op with
      | setOp w k' v' =>
        rw [applyOp]
        rw [set_get_ttlNone st h]
        rw [lastSetStep]
        by_cases hk : k' = k
        · simp [hk]
        · simp [hk]
      | getOp w k' =>
        rw [applyOp, get_ttlNone_snd st h, lastSetStep]
    · rfl


theorem run_intake_parsed (pn : String) (b q : Int) (scope : String) (c : Obj)
    (hst : (objGet c "status").isSome = true)
    (hrs : (objGet c "requirements_summary").isSome = true) :
    run_intake pn b q scope (.parsed (some c)) = c := by
  rw [run_intake, hst, hrs]
  rfl

theorem intake_ok_char (pn scope sid : String) (b q ts : Int) (c prevS : Obj)
    (A C : List Val)
    (hpn : ¬ pyStrip pn = "") (hq : 1 ≤ q) (hb : 0 ≤ b)
    (hst : (objGet c "status").isSome = true)
    (hrs : (objGet c "requirements_summary").isSome = true)
    (hqs : objGet c "missing_info_questions" = some (.arr C))
    (hasked : objGet prevS "asked_questions" = some (.arr A)) :
    intake_recommendations (some pn) (some b) (some q) scope (.parsed (some c)) sid
        (some prevS) ts
      = KpaResp.ok
          [("session_id", .str sid),
           ("intake", .obj (objSet c "missing_info_questions"
              (.arr (C.filter (fun x => !valMem x (pySetVals A))))))]
          [("product_name", .str (pyStrip pn)),
           ("budget_usd", .num b),
           ("quantity", .num q),
           ("scope_text", .str scope),
           ("intake_result", .obj (objSet c "missing_info_questions"
              (.arr (C.filter (fun x => !valMem x (pySetVals A)))))),
           ("answers", pyOr (pyGetV prevS "answers") (.obj [])),
           ("asked_questions", .arr (pyUnionVals (pySetVals A)
              (C.filter (fun x => !valMem x (pySetVals A))))),
           ("ts", .num ts)] := by
  have hqz : extractQty (some q) = q := by
    rw [extractQty]
    rw [if_neg (by omega)]
  have hql : ¬ q < 1 := by omega
  have hbl : ¬ b < 0 := by omega
  have hri := run_intake_parsed (pyStrip pn) b q scope c hst hrs
  have haskedv : pyGetV prevS "asked_questions" = Val.arr A := by
    rw [pyGetV, hasked]; rfl
  have hcand : pyGetV c "missing_info_questions" = Val.arr C := by
    rw [pyGetV, hqs]; rfl
  simp only [intake_recommendations, Option.getD_some, hqz, if_false, hpn,
    hql, hbl, hri, haskedv, hcand, pyOr_arr]

theorem kiba_patch_ok_char2 (sid nowInit now : String) (s body patch : Obj)
    (v : Int) (axs : List Val)
    (hv : objGet s "version" = some (.num v))
    (hcv : objGet body "version" = none ∨ objGet body "version" = some .null
           ∨ objGet body "version" = some (.num v))
    (hfil : body.filter (fun kv => kv.1 ≠ "version") = patch)
    (hnoa : ∀ kv ∈ patch, kv.1 ≠ "audit")
    (haud : objGet s "audit" = some (.arr axs)) :
    kiba_patch_session sid (some s) nowInit now body =
      (KibaResp.ok (objSet (objSet (objMerge s patch) "version" (.num (v + 1)))
          "audit" (.arr (axs ++ [patchAuditEntry now patch]))),
       some (objSet (objSet (objMerge s patch) "version" (.num (v + 1)))
          "audit" (.arr (axs ++ [patchAuditEntry now patch])))) := by
  have hpy : pyGetV s "version" = Val.num v := by rw [pyGetV, hv]; rfl
  have hupdaud : objGet (objSet (objMerge s patch) "version" (.num (v + 1))) "audit"
      = some (.arr axs) := by
    rw [objGet_objSet_ne _ _ _ _ (by decide)]
    rw [objGet_objMerge_notMem s patch "audit" hnoa]
    exact haud
  rcases hcv with hcv | hcv | hcv
  · simp only [kiba_patch_session, hcv, hfil, Option.getD_some, getVersionInt,
      hv, pyIntOfVal]
    rw [appendAudit_arr _ _ _ hupdaud]
  · simp only [kiba_patch_session, hcv, hfil, Option.getD_some, getVersionInt,
      hv, pyIntOfVal]
    rw [appendAudit_arr _ _ _ hupdaud]
  · have hbeq : valBeq (Val.num v) (pyGetV s "version") = true := by
      rw [hpy]
      simp [valBeq]
    simp only [kiba_patch_session, hcv, hfil, Option.getD_some, hbeq, if_true,
      getVersionInt, hv, pyIntOfVal]
    rw [appendAudit_arr _ _ _ hupdaud]

theorem objSet_version_filter (body : Obj) (x : Val)
    (hnov : objGet body "version" = none) :
    (objSet body "version" x).filter (fun kv => kv.1 ≠ "version") = body := by
  rw [objSet_of_get_none body "version" x hnov]
  rw [List.filter_append]
  rw [objFilter_eq_self body "version" (objGet_none_forall body "version" hnov)]
  simp

/-- C1: for a KIBA session stored with version `v`, a patch supplying
expected version `v` succeeds and leaves the stored version at `v + 1`;
a patch supplying any version `w ≠ v` fails with a 409
`version_conflict` response carrying the current server-side version and
stores nothing (the record, version included, is unchanged); a patch
that omits the version proceeds unconditionally. -/
theorem C1_optimistic_concurrency (sid nowInit now : String) (s body : Obj)
    (v : Int) (axs : List Val)
    (hv : objGet s "version" = some (.num v))
    (hnov : objGet body "version" = none)
    (hnoa : ∀ kv ∈ body, kv.1 ≠ "audit")
    (haud : objGet s "audit" = some (.arr axs)) :
    (∃ u, kiba_patch_session sid (some s) nowInit now (objSet body "version" (.num v))
        = (KibaResp.ok u, some u)
      ∧ objGet u "version" = some (.num (v + 1)))
    ∧ (∀ w : Int, w ≠ v →
        kiba_patch_session sid (some s) nowInit now (objSet body "version" (.num w))
          = (KibaResp.err 409 [("error", .str "version_conflict"),
              ("serverVersion", .num v)], some s))
    ∧ (∃ u, kiba_patch_session sid (some s) nowInit now body = (KibaResp.ok u, some u)
        ∧ objGet u "version" = some (.num (v + 1))) := by
  have hpy : pyGetV s "version" = Val.num v := by rw [pyGetV, hv]; rfl
  refine ⟨⟨objSet (objSet (objMerge s body) "version" (.num (v + 1)))
      "audit" (.arr (axs ++ [patchAuditEntry now body])), ?_, ?_⟩, ?_,
    ⟨objSet (objSet (objMerge s body) "version" (.num (v + 1)))
      "audit" (.arr (axs ++ [patchAuditEntry now body])), ?_, ?_⟩⟩
  · exact kiba_patch_ok_char2 sid nowInit now s
      (objSet body "version" (.num v)) body v axs hv
      (Or.inr (Or.inr (objGet_objSet_self body "version" (.num v))))
      (objSet_version_filter body _ hnov) hnoa haud
  · rw [objGet_objSet_ne _ _ _ _ (by decide)]
    exact objGet_objSet_self _ _ _
  · intro w hw
    have hcv : objGet (objSet body "version" (.num w)) "version" = some (.num w) :=
      objGet_objSet_self body "version" (.num w)
    have hbeq : valBeq (Val.num w) (Val.num v) = false := by simp [valBeq, hw]
    simp only [kiba_patch_session, hcv, Option.getD_some, hpy, hbeq, if_false]
    simp
  · exact kiba_patch_ok_char2 sid nowInit now s body body v axs hv (Or.inl hnov)
      (objFilter_eq_self body "version" (objGet_none_forall body "version" hnov))
      hnoa haud
  · rw [objGet_objSet_ne _ _ _ _ (by decide)]
    exact objGet_objSet_self _ _ _

theorem C1_optimistic_concurrency_witness :
    (objGet (default_kiba_session "s1" "t0") "version" = some (Val.num 1)
     ∧ objGet ([("currentStep", Val.str "vendorSearch")] : Obj) "version" = none
     ∧ (∀ kv ∈ ([("currentStep", Val.str "vendorSearch")] : Obj), kv.1 ≠ "audit")
     ∧ objGet (default_kiba_session "s1" "t0") "audit"
         = some (.arr [.obj [("at", .str "t0"), ("by", .str "system"),
             ("event", .str "session_init")]]))
    ∧ ((∃ u, kiba_patch_session "s1" (some (default_kiba_session "s1" "t0")) "t0" "t1"
          (objSet [("currentStep", Val.str "vendorSearch")] "version" (.num 1))
          = (KibaResp.ok u, some u)
        ∧ objGet u "version" = some (.num 2))
      ∧ (∀ w : Int, w ≠ 1 →
          kiba_patch_session "s1" (some (default_kiba_session "s1" "t0")) "t0" "t1"
            (objSet [("currentStep", Val.str "vendorSearch")] "version" (.num w))
            = (KibaResp.err 409 [("error", .str "version_conflict"),
                ("serverVersion", .num 1)], some (default_kiba_session "s1" "t0")))
      ∧ (∃ u, kiba_patch_session "s1" (some (default_kiba_session "s1" "t0")) "t0" "t1"
            [("currentStep", Val.str "vendorSearch")] = (KibaResp.ok u, some u)
          ∧ objGet u "version" = some (.num 2))) :=
  ⟨⟨by decide, by decide, by decide, by decide⟩,
   C1_optimistic_concurrency "s1" "t0" "t1" (default_kiba_session "s1" "t0")
     [("currentStep", Val.str "vendorSearch")] 1
     [.obj [("at", .str "t0"), ("by", .str "system"), ("event", .str "session_init")]]
     (by decide) (by decide) (by decide) (by decide)⟩

theorem appendMany_ok (sid nowInit now : String) :
    ∀ (rs : List Obj) (s steps vs : Obj) (xs axs : List Val) (v : Int),
      objGet s "steps" = some (.obj steps) →
      objGet steps "vendorSearch" = some (.obj vs) →
      objGet vs "runs" = some (.arr xs) →
      objGet s "version" = some (.num v) →
      objGet s "audit" = some (.arr axs) →
      ∃ w, appendMany sid nowInit now s rs = some w
        ∧ sessionRuns w = some (xs ++ rs.map Val.obj) := by
  intro rs
  induction rs with
  | nil =>
    intro s steps vs xs axs v hsteps hvs hruns hv haud
    refine ⟨s, rfl, ?_⟩
    rw [sessionRuns_of_gets s steps vs xs hsteps hvs hruns]
    simp
  | cons r rest ih =>
    intro s steps vs xs axs v hsteps hvs hruns hv haud
    obtain ⟨u, hstep, _, hau, ⟨steps2, vs2, hus, hvs2, hruns2, _, _, _⟩, _, _⟩ :=
      kiba_create_run_ok sid nowInit now s steps vs xs axs v r hsteps hvs hruns hv haud
    have huv : objGet u "version" = some (.num (v + 1)) := by
      obtain ⟨u', hstep', huv', _⟩ :=
        kiba_create_run_ok sid nowInit now s steps vs xs axs v r hsteps hvs hruns hv haud
      rw [hstep] at hstep'
      cases hstep'
      exact huv'
    obtain ⟨w, hrest, hwruns⟩ := ih u steps2 vs2 (xs ++ [.obj r])
      (axs ++ [runAuditEntry now r]) (v + 1) hus hvs2 hruns2 huv hau
    refine ⟨w, ?_, ?_⟩
    · rw [appendMany, hstep]
      exact hrest
    · rw [hwruns]
      simp

/-- C2 counterexample: the claim quantifies over every patch body, but a
patch whose body contains the top-level `steps` key replaces the whole
step map.  Starting from a fresh session with one appended run, the
patch body `{"steps": {"vendorSearch": {"runs": [], "activeRunId": null}}}`
succeeds and leaves the stored `runs` sequence empty: a patch call
shortened `runs` from length 1 to length 0. -/
theorem C2_counterexample :
    (sessionRuns ((kiba_create_run "s1" (some (default_kiba_session "s1" "t0")) "t0" "t1"
        [("run", Val.obj [("runId", Val.str "r1")])]).2.getD [])).map List.length = some 1
    ∧ kibaOk (kiba_patch_session "s1"
        (kiba_create_run "s1" (some (default_kiba_session "s1" "t0")) "t0" "t1"
          [("run", Val.obj [("runId", Val.str "r1")])]).2 "t0" "t2"
        [("steps", Val.obj [("vendorSearch",
            Val.obj [("runs", Val.arr []), ("activeRunId", Val.null)])])]).1 = true
    ∧ ((sessionRuns ((kiba_patch_session "s1"
        (kiba_create_run "s1" (some (default_kiba_session "s1" "t0")) "t0" "t1"
          [("run", Val.obj [("runId", Val.str "r1")])]).2 "t0" "t2"
        [("steps", Val.obj [("vendorSearch",
            Val.obj [("runs", Val.arr []), ("activeRunId", Val.null)])])]).2.getD [])).map
        List.length = some 0) := by
  refine ⟨?_, ?_, ?_⟩ <;> rfl

/-- C2 (amended): appending N runs through the runs endpoint yields a
`runs` sequence consisting of exactly those N runs in append order, and a
successful patch whose body does not contain the top-level `steps` key
leaves `runs` unchanged.  (The original claim's "for any patch body" is
false: a body with a `steps` key replaces the whole step map and can
erase runs — see the counterexample.) -/
theorem C2_runs_append_only (sid nowInit now t0 : String) (rs : List Obj)
    (s patchBody u : Obj)
    (hnosteps : ∀ kv ∈ patchBody, kv.1 ≠ "steps")
    (hok : (kiba_patch_session sid (some s) nowInit now patchBody).1 = KibaResp.ok u) :
    (∃ w, appendMany sid nowInit now (default_kiba_session sid t0) rs = some w
       ∧ sessionRuns w = some (rs.map Val.obj))
    ∧ sessionRuns u = sessionRuns s := by
  constructor
  · obtain ⟨w, hw, hwr⟩ := appendMany_ok sid nowInit now rs
      (default_kiba_session sid t0) _ _ [] _ 1 rfl rfl rfl rfl rfl
    exact ⟨w, hw, by simpa using hwr⟩
  · exact kiba_patch_preserves_runs sid nowInit now s patchBody u hnosteps hok

/-- Concrete stored record after the witness patch of C2. -/
def c2Patched : Obj :=
  (kiba_patch_session "s1" (some (default_kiba_session "s1" "t0")) "t0" "t1"
    [("currentStep", Val.str "evaluation")]).2.getD []

theorem C2_runs_append_only_witness :
    ((∀ kv ∈ ([("currentStep", Val.str "evaluation")] : Obj), kv.1 ≠ "steps")
      ∧ (kiba_patch_session "s1" (some (default_kiba_session "s1" "t0")) "t0" "t1"
          [("currentStep", Val.str "evaluation")]).1 = KibaResp.ok c2Patched)
    ∧ ((∃ w, appendMany "s1" "t0" "t1" (default_kiba_session "s1" "t0")
          [[("runId", Val.str "r1")], [("runId", Val.str "r2")]] = some w
        ∧ sessionRuns w
            = some ([[("runId", Val.str "r1")], [("runId", Val.str "r2")]].map Val.obj))
      ∧ sessionRuns c2Patched = sessionRuns (default_kiba_session "s1" "t0")) :=
  ⟨⟨by decide, rfl⟩,
   C2_runs_append_only "s1" "t0" "t1" "t0"
     [[("runId", Val.str "r1")], [("runId", Val.str "r2")]]
     (default_kiba_session "s1" "t0") [("currentStep", Val.str "evaluation")]
     c2Patched (by decide) rfl⟩

/-- C3 counterexample: the patch endpoint merges the body before
appending the audit entry, so a successful patch whose body contains an
`audit` key rewrites audit history.  On a fresh session (audit length 1)
the body `{"audit": []}` succeeds, yet the stored audit still has length
1 — not 2 — and it now consists solely of the new patch entry: the prior
`session_init` entry's content is gone. -/
theorem C3_counterexample :
    kibaOk (kiba_patch_session "s1" (some (default_kiba_session "s1" "t0")) "t0" "t1"
        [("audit", Val.arr [])]).1 = true
    ∧ (sessionAudit (default_kiba_session "s1" "t0")).map List.length = some 1
    ∧ ((sessionAudit ((kiba_patch_session "s1" (some (default_kiba_session "s1" "t0"))
        "t0" "t1" [("audit", Val.arr [])]).2.getD [])).map List.length = some 1)
    ∧ sessionAudit ((kiba_patch_session "s1" (some (default_kiba_session "s1" "t0"))
        "t0" "t1" [("audit", Val.arr [])]).2.getD [])
      = some [patchAuditEntry "t1" [("audit", Val.arr [])]] := by
  refine ⟨?_, ?_, ?_, ?_⟩ <;> rfl

/-- C3 (amended): every successful mutating call — a patch whose body
contains no top-level `audit` key, an appendRun, a close with its
preconditions met — increments the stored version by exactly one and
appends exactly one audit entry, leaving every prior audit entry
unchanged.  (The original claim covered arbitrary patch bodies; a body
with an `audit` key replaces the audit trail — see the counterexample.) -/
theorem C3_audit_version_per_mutation (sid nowInit now : String)
    (s steps vs : Obj) (xs axs : List Val) (v : Int) (body r : Obj)
    (t tsteps tvs tev tsel : Obj) (txs tss taxs : List Val) (tv : Int) (snap : Val)
    (hv : objGet s "version" = some (.num v))
    (haud : objGet s "audit" = some (.arr axs))
    (hnov : objGet body "version" = none)
    (hnoa : ∀ kv ∈ body, kv.1 ≠ "audit")
    (hsteps : objGet s "steps" = some (.obj steps))
    (hvs : objGet steps "vendorSearch" = some (.obj vs))
    (hruns : objGet vs "runs" = some (.arr xs))
    (htsteps : objGet t "steps" = some (.obj tsteps))
    (htvs : objGet tsteps "vendorSearch" = some (.obj tvs))
    (htev : objGet tsteps "evaluation" = some (.obj tev))
    (htsel : objGet tsteps "selection" = some (.obj tsel))
    (htruns : objGet tvs "runs" = some (.arr txs))
    (htshort : objGet tev "shortlistVendorIds" = some (.arr tss))
    (htxs : txs ≠ []) (htss : tss ≠ [])
    (htselok : pyTruthy (pyGetV tsel "selectedVendorId") = true)
    (hsnap : firstSnapshot txs (pyGetV tvs "activeRunId") = some snap)
    (htv : objGet t "version" = some (.num tv))
    (htaud : objGet t "audit" = some (.arr taxs)) :
    (∃ u, kiba_patch_session sid (some s) nowInit now body = (KibaResp.ok u, some u)
      ∧ objGet u "version" = some (.num (v + 1))
      ∧ objGet u "audit" = some (.arr (axs ++ [patchAuditEntry now body])))
    ∧ (∃ u, kiba_create_run sid (some s) nowInit now [("run", .obj r)]
        = (KibaResp.ok u, some u)
      ∧ objGet u "version" = some (.num (v + 1))
      ∧ objGet u "audit" = some (.arr (axs ++ [runAuditEntry now r])))
    ∧ (∃ u, kiba_close_session (some t) now = (KibaResp.ok u, some u)
      ∧ objGet u "version" = some (.num (tv + 1))
      ∧ objGet u "audit" = some (.arr (taxs ++ [closeAuditEntry now]))) := by
  refine ⟨?_, ?_, ?_⟩
  · refine ⟨_, kiba_patch_ok_char2 sid nowInit now s body body v axs hv (Or.inl hnov)
      (objFilter_eq_self body "version" (objGet_none_forall body "version" hnov))
      hnoa haud, ?_, ?_⟩
    · rw [objGet_objSet_ne _ _ _ _ (by decide)]
      exact objGet_objSet_self _ _ _
    · exact objGet_objSet_self _ _ _
  · obtain ⟨u, hstep, hver, hau, _⟩ :=
      kiba_create_run_ok sid nowInit now s steps vs xs axs v r hsteps hvs hruns hv haud
    exact ⟨u, hstep, hver, hau⟩
  · obtain ⟨u, hstep, _, hver, hau, _⟩ :=
      kiba_close_ok now t tsteps tvs tev tsel txs tss taxs tv snap htsteps htvs htev
        htsel htruns htshort htxs htss htselok hsnap htv htaud
    exact ⟨u, hstep, hver, hau⟩

/-- A populated KIBA session that satisfies all three close
preconditions (one run, a non-empty shortlist, a selected vendor). -/
def closeableSession : Obj :=
  [("sessionId", .str "s2"),
   ("status", .str "open"),
   ("currentStep", .str "selection"),
   ("steps", .obj
      [("request", .obj []),
       ("vendorSearch", .obj
          [("runs", .arr [.obj [("runId", .str "r1"),
             ("vendorsSnapshot", .obj [("vendors", .arr [.str "acme"])])]]),
           ("activeRunId", .str "r1")]),
       ("evaluation", .obj
          [("shortlistVendorIds", .arr [.str "acme"]),
           ("notesByVendorId", .obj []), ("attachments", .arr [])]),
       ("selection", .obj
          [("selectedVendorId", .str "acme"), ("rationale", .null),
           ("terms", .null), ("totalAwardAmount", .null)])]),
   ("audit", .arr [.obj [("at", .str "t0"), ("by", .str "system"),
      ("event", .str "session_init")]]),
   ("version", .num 4)]

theorem C3_audit_version_per_mutation_witness :
    (objGet (default_kiba_session "s1" "t0") "version" = some (Val.num 1)
     ∧ objGet (default_kiba_session "s1" "t0") "audit"
         = some (.arr [.obj [("at", .str "t0"), ("by", .str "system"),
             ("event", .str "session_init")]])
     ∧ objGet ([("currentStep", Val.str "search")] : Obj) "version" = none
     ∧ (∀ kv ∈ ([("currentStep", Val.str "search")] : Obj), kv.1 ≠ "audit")
     ∧ objGet closeableSession "version" = some (Val.num 4)
     ∧ firstSnapshot [.obj [("runId", .str "r1"),
          ("vendorsSnapshot", .obj [("vendors", .arr [.str "acme"])])]]
          (Val.str "r1") = some (.obj [("vendors", .arr [.str "acme"])]))
    ∧ ((∃ u, kiba_patch_session "s1" (some (default_kiba_session "s1" "t0")) "t0" "t1"
          [("currentStep", Val.str "search")] = (KibaResp.ok u, some u)
        ∧ objGet u "version" = some (.num 2)
        ∧ objGet u "audit" = some (.arr ([.obj [("at", .str "t0"), ("by", .str "system"),
            ("event", .str "session_init")]]
            ++ [patchAuditEntry "t1" [("currentStep", Val.str "search")]])))
      ∧ (∃ u, kiba_create_run "s1" (some (default_kiba_session "s1" "t0")) "t0" "t1"
            [("run", .obj [("runId", Val.str "r9")])] = (KibaResp.ok u, some u)
        ∧ objGet u "version" = some (.num 2)
        ∧ objGet u "audit" = some (.arr ([.obj [("at", .str "t0"), ("by", .str "system"),
            ("event", .str "session_init")]]
            ++ [runAuditEntry "t1" [("runId", Val.str "r9")]])))
      ∧ (∃ u, kiba_close_session (some closeableSession) "t1" = (KibaResp.ok u, some u)
        ∧ objGet u "version" = some (.num 5)
        ∧ objGet u "audit" = some (.arr ([.obj [("at", .str "t0"), ("by", .str "system"),
            ("event", .str "session_init")]] ++ [closeAuditEntry "t1"])))) :=
  ⟨⟨by decide, by decide, by decide, by decide, by decide, by decide⟩,
   C3_audit_version_per_mutation "s1" "t0" "t1"
     (default_kiba_session "s1" "t0")
     [("request", .obj []),
      ("vendorSearch", .obj [("runs", .arr []), ("activeRunId", .null)]),
      ("evaluation", .obj [("shortlistVendorIds", .arr []),
         ("notesByVendorId", .obj []), ("attachments", .arr [])]),
      ("selection", .obj [("selectedVendorId", .null), ("rationale", .null),
         ("terms", .null), ("totalAwardAmount", .null)])]
     [("runs", .arr []), ("activeRunId", .null)]
     []
     [.obj [("at", .str "t0"), ("by", .str "system"), ("event", .str "session_init")]]
     1 [("currentStep", Val.str "search")]
     [("runId", Val.str "r9")] closeableSession
     [("request", .obj []),
      ("vendorSearch", .obj
         [("runs", .arr [.obj [("runId", .str "r1"),
            ("vendorsSnapshot", .obj [("vendors", .arr [.str "acme"])])]]),
          ("activeRunId", .str "r1")]),
      ("evaluation", .obj
         [("shortlistVendorIds", .arr [.str "acme"]),
          ("notesByVendorId", .obj []), ("attachments", .arr [])]),
      ("selection", .obj
         [("selectedVendorId", .str "acme"), ("rationale", .null),
          ("terms", .null), ("totalAwardAmount", .null)])]
     [("runs", .arr [.obj [("runId", .str "r1"),
        ("vendorsSnapshot", .obj [("vendors", .arr [.str "acme"])])]]),
      ("activeRunId", .str "r1")]
     [("shortlistVendorIds", .arr [.str "acme"]),
      ("notesByVendorId", .obj []), ("attachments", .arr [])]
     [("selectedVendorId", .str "acme"), ("rationale", .null),
      ("terms", .null), ("totalAwardAmount", .null)]
     [.obj [("runId", .str "r1"),
        ("vendorsSnapshot", .obj [("vendors", .arr [.str "acme"])])]]
     [.str "acme"]
     [.obj [("at", .str "t0"), ("by", .str "system"), ("event", .str "session_init")]]
     4
     (.obj [("vendors", .arr [.str "acme"])])
     (by decide) (by decide) (by decide) (by decide) (by decide) (by decide)
     (by decide) (by decide) (by decide) (by decide) (by decide) (by decide)
     (by decide) (by decide) (by decide) (by decide) (by decide) (by decide)
     (by decide)⟩

/-- A session violating only the first close precondition: no runs, but
a non-empty shortlist and a selected vendor. -/
def noRunsSession : Obj :=
  [("sessionId", .str "s3"),
   ("status", .str "open"),
   ("currentStep", .str "selection"),
   ("steps", .obj
      [("request", .obj []),
       ("vendorSearch", .obj [("runs", .arr []), ("activeRunId", .null)]),
       ("evaluation", .obj
          [("shortlistVendorIds", .arr [.str "acme"]),
           ("notesByVendorId", .obj []), ("attachments", .arr [])]),
       ("selection", .obj
          [("selectedVendorId", .str "acme"), ("rationale", .null),
           ("terms", .null), ("totalAwardAmount", .null)])]),
   ("audit", .arr [.obj [("at", .str "t0"), ("by", .str "system"),
      ("event", .str "session_init")]]),
   ("version", .num 2)]

/-- A session violating only the second close precondition: one run and a
selected vendor, but an empty shortlist. -/
def noShortlistSession : Obj :=
  [("sessionId", .str "s4"),
   ("status", .str "open"),
   ("currentStep", .str "selection"),
   ("steps", .obj
      [("request", .obj []),
       ("vendorSearch", .obj
          [("runs", .arr [.obj [("runId", .str "r1"),
             ("vendorsSnapshot", .obj [])]]),
           ("activeRunId", .str "r1")]),
       ("evaluation", .obj
          [("shortlistVendorIds", .arr []),
           ("notesByVendorId", .obj []), ("attachments", .arr [])]),
       ("selection", .obj
          [("selectedVendorId", .str "acme"), ("rationale", .null),
           ("terms", .null), ("totalAwardAmount", .null)])]),
   ("audit", .arr [.obj [("at", .str "t0"), ("by", .str "system"),
      ("event", .str "session_init")]]),
   ("version", .num 2)]

/-- C4 counterexample: the claim says the `PreconditionFailed` error
names which of the three preconditions was unmet, but the handler
returns the constant body `{"error": "validation_failed"}` for every
violation.  A session with zero runs and a session with an empty
shortlist — different unmet preconditions — receive byte-identical
responses, so the response cannot name the failed precondition. -/
theorem C4_counterexample :
    kiba_close_session (some noRunsSession) "t1"
      = (KibaResp.err 400 [("error", Val.str "validation_failed")], some noRunsSession)
    ∧ kiba_close_session (some noShortlistSession) "t1"
      = (KibaResp.err 400 [("error", Val.str "validation_failed")], some noShortlistSession)
    ∧ (sessionRuns noRunsSession).map List.length = some 0
    ∧ (sessionRuns noShortlistSession).map List.length = some 1 :=
  ⟨rfl, rfl, rfl, rfl⟩

/-- C4 (amended): close on a session id with no stored record fails with
the 404 `not_found` response and stores nothing (no auto-creation);
close on an existing session with zero runs, an empty shortlist, or no
selected vendor fails with the 400 response whose body is the generic
`{"error": "validation_failed"}` — it does not name which precondition
failed — and the stored record is unchanged. -/
theorem C4_close_error_handling (now : String) (t tsteps tvs tev tsel : Obj)
    (txs tss : List Val)
    (htsteps : objGet t "steps" = some (.obj tsteps))
    (htvs : objGet tsteps "vendorSearch" = some (.obj tvs))
    (htev : objGet tsteps "evaluation" = some (.obj tev))
    (htsel : objGet tsteps "selection" = some (.obj tsel))
    (htruns : objGet tvs "runs" = some (.arr txs))
    (htshort : objGet tev "shortlistVendorIds" = some (.arr tss))
    (hfail : txs = [] ∨ tss = [] ∨ pyTruthy (pyGetV tsel "selectedVendorId") = false) :
    kiba_close_session none now = (KibaResp.err 404 [("error", .str "not_found")], none)
    ∧ kiba_close_session (some t) now
        = (KibaResp.err 400 [("error", .str "validation_failed")], some t) :=
  ⟨rfl, kiba_close_precondition_failed now t tsteps tvs tev tsel txs tss
    htsteps htvs htev htsel htruns htshort hfail⟩

theorem C4_close_error_handling_witness :
    (objGet (default_kiba_session "s1" "t0") "steps" ≠ none
     ∧ sessionRuns (default_kiba_session "s1" "t0") = some [])
    ∧ (kiba_close_session none "t1" = (KibaResp.err 404 [("error", .str "not_found")], none)
      ∧ kiba_close_session (some (default_kiba_session "s1" "t0")) "t1"
          = (KibaResp.err 400 [("error", .str "validation_failed")],
             some (default_kiba_session "s1" "t0"))) :=
  ⟨⟨by decide, rfl⟩,
   C4_close_error_handling "t1" (default_kiba_session "s1" "t0")
     [("request", .obj []),
      ("vendorSearch", .obj [("runs", .arr []), ("activeRunId", .null)]),
      ("evaluation", .obj [("shortlistVendorIds", .arr []),
         ("notesByVendorId", .obj []), ("attachments", .arr [])]),
      ("selection", .obj [("selectedVendorId", .null), ("rationale", .null),
         ("terms", .null), ("totalAwardAmount", .null)])]
     [("runs", .arr []), ("activeRunId", .null)]
     [("shortlistVendorIds", .arr []), ("notesByVendorId", .obj []),
      ("attachments", .arr [])]
     [("selectedVendorId", .null), ("rationale", .null), ("terms", .null),
      ("totalAwardAmount", .null)]
     [] []
     (by decide) (by decide) (by decide) (by decide) (by decide) (by decide)
     (Or.inl rfl)⟩

/-- C5: on a session with at least one run, a non-empty shortlist and a
selected vendor, close succeeds: the stored record has status `closed`,
version incremented by one, and a `final` snapshot whose `selection` is
exactly the stored selection object, whose `steps` is the full steps
map, and whose `vendorsSnapshot` is taken from the first run whose
`runId` equals the current `activeRunId` — or the empty snapshot if no
run matches. -/
theorem C5_close_success (now : String) (t tsteps tvs tev tsel : Obj)
    (txs tss taxs : List Val) (tv : Int)
    (htsteps : objGet t "steps" = some (.obj tsteps))
    (htvs : objGet tsteps "vendorSearch" = some (.obj tvs))
    (htev : objGet tsteps "evaluation" = some (.obj tev))
    (htsel : objGet tsteps "selection" = some (.obj tsel))
    (htruns : objGet tvs "runs" = some (.arr txs))
    (htshort : objGet tev "shortlistVendorIds" = some (.arr tss))
    (htxs : txs ≠ []) (htss : tss ≠ [])
    (htselok : pyTruthy (pyGetV tsel "selectedVendorId") = true)
    (htobj : ∀ x ∈ txs, ∃ f, x = Val.obj f)
    (htv : objGet t "version" = some (.num tv))
    (htaud : objGet t "audit" = some (.arr taxs)) :
    ∃ u snap, kiba_close_session (some t) now = (KibaResp.ok u, some u)
      ∧ objGet u "status" = some (.str "closed")
      ∧ objGet u "version" = some (.num (tv + 1))
      ∧ (∃ ff, objGet u "final" = some (.obj ff)
          ∧ objGet ff "selection" = some (.obj tsel)
          ∧ objGet ff "steps" = some (.obj tsteps)
          ∧ objGet ff "activeRunId" = some (pyGetV tvs "activeRunId")
          ∧ objGet ff "vendorsSnapshot" = some snap)
      ∧ ((∃ l1 f l2, txs = l1 ++ Val.obj f :: l2
            ∧ (∀ g, Val.obj g ∈ l1 → pyGetV g "runId" ≠ pyGetV tvs "activeRunId")
            ∧ pyGetV f "runId" = pyGetV tvs "activeRunId"
            ∧ snap = pyGetV f "vendorsSnapshot")
         ∨ ((∀ f, Val.obj f ∈ txs → pyGetV f "runId" ≠ pyGetV tvs "activeRunId")
            ∧ snap = Val.obj [])) := by
  obtain ⟨snap, hsnap, hspec⟩ := firstSnapshot_spec txs (pyGetV tvs "activeRunId") htobj
  obtain ⟨u, hstep, hstatus, hver, _, hfinal, _⟩ := kiba_close_ok now t tsteps tvs tev
    tsel txs tss taxs tv snap htsteps htvs htev htsel htruns htshort htxs htss
    htselok hsnap htv htaud
  exact ⟨u, snap, hstep, hstatus, hver, ⟨_, hfinal, rfl, rfl, rfl, rfl⟩, hspec⟩

theorem C5_close_success_witness :
    (objGet closeableSession "version" = some (Val.num 4)
     ∧ pyTruthy (pyGetV [("selectedVendorId", Val.str "acme"), ("rationale", Val.null),
         ("terms", Val.null), ("totalAwardAmount", Val.null)] "selectedVendorId") = true
     ∧ ([Val.obj [("runId", .str "r1"),
          ("vendorsSnapshot", .obj [("vendors", .arr [.str "acme"])])]] : List Val) ≠ [])
    ∧ (∃ u snap, kiba_close_session (some closeableSession) "t1" = (KibaResp.ok u, some u)
      ∧ objGet u "status" = some (.str "closed")
      ∧ objGet u "version" = some (.num 5)
      ∧ (∃ ff, objGet u "final" = some (.obj ff)
          ∧ objGet ff "selection" = some (.obj [("selectedVendorId", Val.str "acme"),
              ("rationale", Val.null), ("terms", Val.null), ("totalAwardAmount", Val.null)])
          ∧ objGet ff "steps" = some (.obj
              [("request", .obj []),
               ("vendorSearch", .obj
                  [("runs", .arr [.obj [("runId", .str "r1"),
                     ("vendorsSnapshot", .obj [("vendors", .arr [.str "acme"])])]]),
                   ("activeRunId", .str "r1")]),
               ("evaluation", .obj
                  [("shortlistVendorIds", .arr [.str "acme"]),
                   ("notesByVendorId", .obj []), ("attachments", .arr [])]),
               ("selection", .obj
                  [("selectedVendorId", .str "acme"), ("rationale", .null),
                   ("terms", .null), ("totalAwardAmount", .null)])])
          ∧ objGet ff "activeRunId" = some (pyGetV
              [("runs", .arr [.obj [("runId", .str "r1"),
                 ("vendorsSnapshot", .obj [("vendors", .arr [.str "acme"])])]]),
               ("activeRunId", .str "r1")] "activeRunId")
          ∧ objGet ff "vendorsSnapshot" = some snap)
      ∧ ((∃ l1 f l2, ([Val.obj [("runId", .str "r1"),
            ("vendorsSnapshot", .obj [("vendors", .arr [.str "acme"])])]] : List Val)
              = l1 ++ Val.obj f :: l2
            ∧ (∀ g, Val.obj g ∈ l1 → pyGetV g "runId" ≠ pyGetV
                [("runs", .arr [.obj [("runId", .str "r1"),
                   ("vendorsSnapshot", .obj [("vendors", .arr [.str "acme"])])]]),
                 ("activeRunId", .str "r1")] "activeRunId")
            ∧ pyGetV f "runId" = pyGetV
                [("runs", .arr [.obj [("runId", .str "r1"),
                   ("vendorsSnapshot", .obj [("vendors", .arr [.str "acme"])])]]),
                 ("activeRunId", .str "r1")] "activeRunId"
            ∧ snap = pyGetV f "vendorsSnapshot")
         ∨ ((∀ f, Val.obj f ∈ ([Val.obj [("runId", .str "r1"),
              ("vendorsSnapshot", .obj [("vendors", .arr [.str "acme"])])]] : List Val)
              → pyGetV f "runId" ≠ pyGetV
                [("runs", .arr [.obj [("runId", .str "r1"),
                   ("vendorsSnapshot", .obj [("vendors", .arr [.str "acme"])])]]),
                 ("activeRunId", .str "r1")] "activeRunId")
            ∧ snap = Val.obj []))) :=
  ⟨⟨by decide, by decide, by decide⟩,
   C5_close_success "t1" closeableSession
     [("request", .obj []),
      ("vendorSearch", .obj
         [("runs", .arr [.obj [("runId", .str "r1"),
            ("vendorsSnapshot", .obj [("vendors", .arr [.str "acme"])])]]),
          ("activeRunId", .str "r1")]),
      ("evaluation", .obj
         [("shortlistVendorIds", .arr [.str "acme"]),
          ("notesByVendorId", .obj []), ("attachments", .arr [])]),
      ("selection", .obj
         [("selectedVendorId", .str "acme"), ("rationale", .null),
          ("terms", .null), ("totalAwardAmount", .null)])]
     [("runs", .arr [.obj [("runId", .str "r1"),
        ("vendorsSnapshot", .obj [("vendors", .arr [.str "acme"])])]]),
      ("activeRunId", .str "r1")]
     [("shortlistVendorIds", .arr [.str "acme"]),
      ("notesByVendorId", .obj []), ("attachments", .arr [])]
     [("selectedVendorId", .str "acme"), ("rationale", .null),
      ("terms", .null), ("totalAwardAmount", .null)]
     [.obj [("runId", .str "r1"),
        ("vendorsSnapshot", .obj [("vendors", .arr [.str "acme"])])]]
     [.str "acme"]
     [.obj [("at", .str "t0"), ("by", .str "system"), ("event", .str "session_init")]]
     4
     (by decide) (by decide) (by decide) (by decide) (by decide) (by decide)
     (by decide) (by decide) (by decide)
     (by intro x hx
         simp only [List.mem_singleton] at hx
         subst hx
         exact ⟨_, rfl⟩)
     (by decide) (by decide)⟩

theorem intake_core_char (pn scope sid : String) (b q ts : Int)
    (collab : CollabOutcome) (c : Obj) (prev : Option Obj) (prevS : Obj)
    (A C : List Val)
    (hpn : ¬ pyStrip pn = "") (hq : 1 ≤ q) (hb : 0 ≤ b)
    (hprev : prev.getD [] = prevS)
    (hc : run_intake (pyStrip pn) b q scope collab = c)
    (hqs : objGet c "missing_info_questions" = some (.arr C))
    (haskedOr : pyOr (pyGetV prevS "asked_questions") (.arr []) = .arr A) :
    intake_recommendations (some pn) (some b) (some q) scope collab sid
        prev ts
      = KpaResp.ok
          [("session_id", .str sid),
           ("intake", .obj (objSet c "missing_info_questions"
              (.arr (C.filter (fun x => !valMem x (pySetVals A))))))]
          [("product_name", .str (pyStrip pn)),
           ("budget_usd", .num b),
           ("quantity", .num q),
           ("scope_text", .str scope),
           ("intake_result", .obj (objSet c "missing_info_questions"
              (.arr (C.filter (fun x => !valMem x (pySetVals A)))))),
           ("answers", pyOr (pyGetV prevS "answers") (.obj [])),
           ("asked_questions", .arr (pyUnionVals (pySetVals A)
              (C.filter (fun x => !valMem x (pySetVals A))))),
           ("ts", .num ts)] := by
  have hqz : extractQty (some q) = q := by
    rw [extractQty]
    rw [if_neg (by omega)]
  have hql : ¬ q < 1 := by omega
  have hbl : ¬ b < 0 := by omega
  have hcand : pyGetV c "missing_info_questions" = Val.arr C := by
    rw [pyGetV, hqs]; rfl
  simp only [intake_recommendations, Option.getD_some, hqz, hpn, hql, hbl,
    hprev, hc, haskedOr, hcand, pyOr_arr]
  simp

theorem objGet_objMerge_right (b : Obj) (k : String) (w : Val) :
    ∀ a : Obj, (b.map Prod.fst).Nodup → objGet b k = some w →
      objGet (objMerge a b) k = some w := by
  induction b with
  | nil => intro a _ h; cases h
  | cons kv rest ih =>
    intro a hnodup h
    obtain ⟨k1, v1⟩ := kv
    rw [List.map_cons] at hnodup
    have hnd := List.nodup_cons.mp hnodup
    by_cases hk : k1 = k
    · subst hk
      rw [objGet, if_pos rfl] at h
      injection h with hw
      show objGet (objMerge (objSet a k1 v1) rest) k1 = some w
      rw [objGet_objMerge_notMem _ _ _ ?notm]
      · rw [objGet_objSet_self, hw]
      case notm =>
        intro kv2 hm2 heq
        have hmm : kv2.1 ∈ List.map Prod.fst rest := List.mem_map_of_mem Prod.fst hm2
        rw [heq] at hmm
        exact hnd.1 hmm
    · rw [objGet, if_neg hk] at h
      show objGet (objMerge (objSet a k1 v1) rest) k = some w
      exact ih (objSet a k1 v1) hnd.2 h

/-- C6: a question already surfaced in an earlier intake call for the
same session is never re-asked.  For a stored asked-question list `A`
and collaborator candidate questions `C`, the returned
`missing_info_questions` are exactly the candidates not in `A` (in
candidate order), and the stored cumulative `asked_questions` set is the
union of `A` and `C`. -/
theorem C6_question_dedup (pn scope sid : String) (b q ts : Int) (c prevS : Obj)
    (A C : List Val)
    (hpn : ¬ pyStrip pn = "") (hq : 1 ≤ q) (hb : 0 ≤ b)
    (hst : (objGet c "status").isSome = true)
    (hrs : (objGet c "requirements_summary").isSome = true)
    (hqs : objGet c "missing_info_questions" = some (.arr C))
    (hasked : objGet prevS "asked_questions" = some (.arr A)) :
    ∃ resp stored, intake_recommendations (some pn) (some b) (some q) scope
        (.parsed (some c)) sid (some prevS) ts = KpaResp.ok resp stored
      ∧ (∃ intake1, objGet resp "intake" = some (.obj intake1)
          ∧ objGet intake1 "missing_info_questions"
              = some (.arr (C.filter (fun x => decide (¬ x ∈ A)))))
      ∧ (∃ U, objGet stored "asked_questions" = some (.arr U)
          ∧ ∀ x, x ∈ U ↔ x ∈ A ∨ x ∈ C) := by
  have hfc : C.filter (fun x => !valMem x (pySetVals A))
      = C.filter (fun x => decide (¬ x ∈ A)) := by
    refine List.filter_congr ?_
    intro x _
    rw [valMem_pySetVals]
    simp
  rw [intake_ok_char pn scope sid b q ts c prevS A C hpn hq hb hst hrs hqs hasked]
  refine ⟨_, _, rfl, ⟨_, rfl, ?_⟩, ⟨_, rfl, ?_⟩⟩
  · rw [objGet_objSet_self, hfc]
  · intro x
    rw [mem_pyUnionVals]
    rw [mem_pySetVals]
    rw [List.mem_filter]
    rw [valMem_pySetVals]
    by_cases hx : x ∈ A
    · simp [hx]
    · simp [hx]

theorem C6_question_dedup_witness :
    (¬ (pyStrip "Widget" = "")
     ∧ objGet [("status", Val.str "questions"),
         ("requirements_summary", Val.str "sum"),
         ("missing_info_questions", Val.arr [Val.str "Q1", Val.str "Q3"])]
         "missing_info_questions" = some (Val.arr [Val.str "Q1", Val.str "Q3"])
     ∧ objGet [("asked_questions", Val.arr [Val.str "Q1", Val.str "Q2"])]
         "asked_questions" = some (Val.arr [Val.str "Q1", Val.str "Q2"])
     ∧ ([Val.str "Q1", Val.str "Q3"].filter
         (fun x => decide (¬ x ∈ [Val.str "Q1", Val.str "Q2"])) = [Val.str "Q3"]))
    ∧ (∃ resp stored, intake_recommendations (some "Widget") (some 100) (some 2) "scope"
        (.parsed (some [("status", Val.str "questions"),
           ("requirements_summary", Val.str "sum"),
           ("missing_info_questions", Val.arr [Val.str "Q1", Val.str "Q3"])]))
        "sess" (some [("asked_questions", Val.arr [Val.str "Q1", Val.str "Q2"])]) 0
        = KpaResp.ok resp stored
      ∧ (∃ intake1, objGet resp "intake" = some (.obj intake1)
          ∧ objGet intake1 "missing_info_questions"
              = some (.arr ([Val.str "Q1", Val.str "Q3"].filter
                  (fun x => decide (¬ x ∈ [Val.str "Q1", Val.str "Q2"])))))
      ∧ (∃ U, objGet stored "asked_questions" = some (.arr U)
          ∧ ∀ x, x ∈ U ↔ x ∈ [Val.str "Q1", Val.str "Q2"]
              ∨ x ∈ [Val.str "Q1", Val.str "Q3"])) :=
  ⟨⟨by decide, by decide, by decide, by decide⟩,
   C6_question_dedup "Widget" "scope" "sess" 100 2 0
     [("status", Val.str "questions"), ("requirements_summary", Val.str "sum"),
      ("missing_info_questions", Val.arr [Val.str "Q1", Val.str "Q3"])]
     [("asked_questions", Val.arr [Val.str "Q1", Val.str "Q2"])]
     [Val.str "Q1", Val.str "Q2"] [Val.str "Q1", Val.str "Q3"]
     (by decide) (by decide) (by decide) (by decide) (by decide) (by decide)
     (by decide)⟩

/-- C7: submitted follow-up answers accumulate.  A submission merges its
pairs into the stored `answers` mapping: keys it does not mention keep
their previous values, keys it mentions take the newly supplied value,
and no previously recorded key is ever dropped.  Both the
`submit_followups` and the `patch_answers` endpoints store the same
merge. -/
theorem C7_answer_accumulation (sid : String) (session oldA na : Obj) (ts : Int)
    (hsid : ¬ sid = "")
    (hold : objGet session "answers" = some (.obj oldA))
    (hnodup : (na.map Prod.fst).Nodup) :
    (∃ resp stored, submit_followups (some sid) (some session) (some (.obj na)) ts
        = KpaResp.ok resp stored
      ∧ objGet stored "answers" = some (.obj (objMerge oldA na)))
    ∧ (∃ resp stored, patch_answers sid (some session) (some (.obj na)) ts
        = KpaResp.ok resp stored
      ∧ objGet stored "answers" = some (.obj (objMerge oldA na)))
    ∧ (∀ k, objGet na k = none → objGet (objMerge oldA na) k = objGet oldA k)
    ∧ (∀ k w, objGet na k = some w → objGet (objMerge oldA na) k = some w)
    ∧ (∀ k w, objGet oldA k = some w → ∃ w2, objGet (objMerge oldA na) k = some w2) := by
  have holdv : pyGetV session "answers" = Val.obj oldA := by
    rw [pyGetV, hold]; rfl
  have hget : objGet (objSet (objSet session "answers" (.obj (objMerge oldA na)))
      "ts" (.num ts)) "answers" = some (.obj (objMerge oldA na)) := by
    rw [objGet_objSet_ne _ _ _ _ (by decide)]
    exact objGet_objSet_self _ _ _
  have hsub : submit_followups (some sid) (some session) (some (.obj na)) ts
      = KpaResp.ok [("session_id", .str sid), ("answers", .obj (objMerge oldA na)),
          ("message", .str "Answers saved successfully. Ready to generate project summary.")]
        (objSet (objSet session "answers" (.obj (objMerge oldA na))) "ts" (.num ts)) := by
    simp only [submit_followups, hsid, if_false, Option.getD_some, holdv, pyOr_obj]
  have hpat : patch_answers sid (some session) (some (.obj na)) ts
      = KpaResp.ok [("session_id", .str sid), ("answers", .obj (objMerge oldA na)),
          ("version", pyOr (pyGetV (objSet (objSet session "answers"
            (.obj (objMerge oldA na))) "ts" (.num ts)) "version") (.num 0))]
        (objSet (objSet session "answers" (.obj (objMerge oldA na))) "ts" (.num ts)) := by
    simp only [patch_answers, Option.getD_some, holdv, pyOr_obj]
  refine ⟨⟨_, _, hsub, hget⟩, ⟨_, _, hpat, hget⟩, ?_, ?_, ?_⟩
  · intro k hk
    exact objGet_objMerge_notMem oldA na k (objGet_none_forall na k hk)
  · intro k w hk
    exact objGet_objMerge_right na k w oldA hnodup hk
  · intro k w hk
    rcases hn : objGet na k with _ | w'
    · exact ⟨w, by rw [objGet_objMerge_notMem oldA na k (objGet_none_forall na k hn)]; exact hk⟩
    · exact ⟨w', objGet_objMerge_right na k w' oldA hnodup hn⟩

theorem C7_answer_accumulation_witness :
    (¬ ("sess" : String) = ""
     ∧ objGet [("answers", Val.obj [("Q1", Val.str "A1")]), ("ts", Val.num 0)]
         "answers" = some (Val.obj [("Q1", Val.str "A1")])
     ∧ submit_followups (some "sess") (some [("answers", Val.obj [])])
         (some (Val.obj [("Q1", Val.str "A1")])) 0
         = KpaResp.ok [("session_id", Val.str "sess"),
             ("answers", Val.obj [("Q1", Val.str "A1")]),
             ("message", Val.str "Answers saved successfully. Ready to generate project summary.")]
             [("answers", Val.obj [("Q1", Val.str "A1")]), ("ts", Val.num 0)]
     ∧ objMerge [("Q1", Val.str "A1")] [("Q2", Val.str "A2")]
         = [("Q1", Val.str "A1"), ("Q2", Val.str "A2")])
    ∧ ((∃ resp stored, submit_followups (some "sess")
          (some [("answers", Val.obj [("Q1", Val.str "A1")]), ("ts", Val.num 0)])
          (some (.obj [("Q2", Val.str "A2")])) 1
          = KpaResp.ok resp stored
        ∧ objGet stored "answers"
            = some (.obj (objMerge [("Q1", Val.str "A1")] [("Q2", Val.str "A2")])))
      ∧ (∃ resp stored, patch_answers "sess"
          (some [("answers", Val.obj [("Q1", Val.str "A1")]), ("ts", Val.num 0)])
          (some (.obj [("Q2", Val.str "A2")])) 1
          = KpaResp.ok resp stored
        ∧ objGet stored "answers"
            = some (.obj (objMerge [("Q1", Val.str "A1")] [("Q2", Val.str "A2")])))
      ∧ (∀ k, objGet [("Q2", Val.str "A2")] k = none →
          objGet (objMerge [("Q1", Val.str "A1")] [("Q2", Val.str "A2")]) k
            = objGet [("Q1", Val.str "A1")] k)
      ∧ (∀ k w, objGet [("Q2", Val.str "A2")] k = some w →
          objGet (objMerge [("Q1", Val.str "A1")] [("Q2", Val.str "A2")]) k = some w)
      ∧ (∀ k w, objGet [("Q1", Val.str "A1")] k = some w →
          ∃ w2, objGet (objMerge [("Q1", Val.str "A1")] [("Q2", Val.str "A2")]) k
            = some w2)) :=
  ⟨⟨by decide, by decide, rfl, by decide⟩,
   C7_answer_accumulation "sess"
     [("answers", Val.obj [("Q1", Val.str "A1")]), ("ts", Val.num 0)]
     [("Q1", Val.str "A1")] [("Q2", Val.str "A2")] 1
     (by decide) (by decide) (by decide)⟩

/-- C8 counterexample: the claim says intake fails with `ValidationError`
whenever `quantity < 1`, but `int(body.get("quantity") or 1)` treats a
supplied `0` as falsy and silently replaces it with the default `1`, so
a request with `quantity = 0` (which is `< 1`) succeeds. -/
theorem C8_counterexample :
    ((0 : Int) < 1)
    ∧ kpaOk (intake_recommendations (some "Widget") (some 100) (some 0) "scope"
        CollabOutcome.unavailable "sid1" none 0) = true :=
  ⟨by decide, rfl⟩

/-- C8 (amended): the intake endpoint fails with a `ValidationError`
naming the offending field whenever the product name is missing or
blank, the supplied quantity is negative, or the budget is negative; a
supplied quantity of `0` is coerced to the default `1` and passes
validation.  For every valid input, when the external recommendation
collaborator is unavailable or raises, the call succeeds and returns the
fixed generic fallback question set and requirements summary instead of
propagating the error. -/
theorem C8_validation_and_fallback (scope sid : String) (ts : Int) :
    (∀ (pnIn : Option String) (budIn qtyIn : Option Int) (collab : CollabOutcome)
        (prev : Option Obj),
      pyStrip (pnIn.getD "") = "" →
      intake_recommendations pnIn budIn qtyIn scope collab sid prev ts
        = KpaResp.httpError 400 "product_name is required")
    ∧ (∀ (pn : String) (budIn : Option Int) (q : Int) (collab : CollabOutcome)
        (prev : Option Obj),
      ¬ pyStrip pn = "" → q < 0 →
      intake_recommendations (some pn) budIn (some q) scope collab sid prev ts
        = KpaResp.httpError 400 "quantity must be >= 1")
    ∧ (∀ (pn : String) (b q : Int) (collab : CollabOutcome) (prev : Option Obj),
      ¬ pyStrip pn = "" → 0 ≤ q → b < 0 →
      intake_recommendations (some pn) (some b) (some q) scope collab sid prev ts
        = KpaResp.httpError 400 "budget_usd must be >= 0")
    ∧ (∀ (pn : String) (b : Int),
      ¬ pyStrip pn = "" → 0 ≤ b →
      kpaOk (intake_recommendations (some pn) (some b) (some 0) scope
        CollabOutcome.unavailable sid none ts) = true)
    ∧ (∀ (pn : String) (b q : Int),
      ¬ pyStrip pn = "" → 1 ≤ q → 0 ≤ b →
      (∃ resp stored, intake_recommendations (some pn) (some b) (some q) scope
          CollabOutcome.unavailable sid none ts = KpaResp.ok resp stored
        ∧ objGet resp "intake"
            = some (.obj (fallbackIntakeUnavailable (pyStrip pn) b q)))
      ∧ (∃ resp stored, intake_recommendations (some pn) (some b) (some q) scope
          CollabOutcome.exc sid none ts = KpaResp.ok resp stored
        ∧ objGet resp "intake"
            = some (.obj (fallbackIntakeError (pyStrip pn) b q)))) := by
  refine ⟨?_, ?_, ?_, ?_, ?_⟩
  · intro pnIn budIn qtyIn collab prev h
    simp [intake_recommendations, h]
  · intro pn budIn q collab prev hpn hq
    have he : extractQty (some q) = q := by
      rw [extractQty]
      rw [if_neg (by omega)]
    have hlt : q < 1 := by omega
    simp [intake_recommendations, hpn, he, hlt]
  · intro pn b q collab prev hpn hq hb
    have hge : ¬ extractQty (some q) < 1 := by
      rw [extractQty]
      by_cases h0 : q = 0
      · rw [if_pos h0]; omega
      · rw [if_neg h0]; omega
    simp [intake_recommendations, hpn, hge, hb]
  · intro pn b hpn hb
    have hbl : ¬ b < 0 := by omega
    have hchar := intake_core_char pn scope sid b 1 ts CollabOutcome.unavailable
      (fallbackIntakeUnavailable (pyStrip pn) b 1) none []
      [] (fallbackQuestionsUnavailable (pyStrip pn))
      hpn (by omega) hb rfl rfl rfl rfl
    have hcall : intake_recommendations (some pn) (some b) (some 0) scope
        CollabOutcome.unavailable sid none ts
        = intake_recommendations (some pn) (some b) (some 1) scope
        CollabOutcome.unavailable sid none ts := by
      simp [intake_recommendations, extractQty]
    rw [hcall, hchar]
    rfl
  · intro pn b q hpn hq hb
    constructor
    · have hchar := intake_core_char pn scope sid b q ts CollabOutcome.unavailable
        (fallbackIntakeUnavailable (pyStrip pn) b q) none []
        [] (fallbackQuestionsUnavailable (pyStrip pn))
        hpn hq hb rfl rfl rfl rfl
      have hfil : (fallbackQuestionsUnavailable (pyStrip pn)).filter
          (fun x => !valMem x (pySetVals [])) = fallbackQuestionsUnavailable (pyStrip pn) := by
        simp [pySetVals, valMem]
      rw [hchar]
      refine ⟨_, _, rfl, ?_⟩
      show some (Val.obj (objSet (fallbackIntakeUnavailable (pyStrip pn) b q)
        "missing_info_questions" (.arr ((fallbackQuestionsUnavailable (pyStrip pn)).filter
          (fun x => !valMem x (pySetVals [])))))) = _
      rw [hfil]
      rfl
    · have hchar := intake_core_char pn scope sid b q ts CollabOutcome.exc
        (fallbackIntakeError (pyStrip pn) b q) none []
        [] (fallbackQuestionsError (pyStrip pn))
        hpn hq hb rfl rfl rfl rfl
      have hfil : (fallbackQuestionsError (pyStrip pn)).filter
          (fun x => !valMem x (pySetVals [])) = fallbackQuestionsError (pyStrip pn) := by
        simp [pySetVals, valMem]
      rw [hchar]
      refine ⟨_, _, rfl, ?_⟩
      show some (Val.obj (objSet (fallbackIntakeError (pyStrip pn) b q)
        "missing_info_questions" (.arr ((fallbackQuestionsError (pyStrip pn)).filter
          (fun x => !valMem x (pySetVals [])))))) = _
      rw [hfil]
      rfl

theorem C8_validation_and_fallback_witness :
    (pyStrip "" = "" ∧ ¬ pyStrip "Widget" = "" ∧ ((-3 : Int) < 0)
     ∧ ((-7 : Int) < 0) ∧ (0 : Int) ≤ 100 ∧ (1 : Int) ≤ 2)
    ∧ intake_recommendations none (some 5) (some 2) "scope" CollabOutcome.exc
        "sess" none 0 = KpaResp.httpError 400 "product_name is required"
    ∧ intake_recommendations (some "Widget") (some 5) (some (-3)) "scope"
        CollabOutcome.exc "sess" none 0
        = KpaResp.httpError 400 "quantity must be >= 1"
    ∧ intake_recommendations (some "Widget") (some (-7)) (some 2) "scope"
        CollabOutcome.exc "sess" none 0
        = KpaResp.httpError 400 "budget_usd must be >= 0"
    ∧ kpaOk (intake_recommendations (some "Widget") (some 100) (some 0) "scope"
        CollabOutcome.unavailable "sess" none 0) = true
    ∧ (∃ resp stored, intake_recommendations (some "Widget") (some 100) (some 2)
        "scope" CollabOutcome.unavailable "sess" none 0 = KpaResp.ok resp stored
      ∧ objGet resp "intake"
          = some (.obj (fallbackIntakeUnavailable (pyStrip "Widget") 100 2))) :=
  ⟨⟨by decide, by decide, by decide, by decide, by decide, by decide⟩,
   (C8_validation_and_fallback "scope" "sess" 0).1 none (some 5) (some 2)
     CollabOutcome.exc none (by decide),
   (C8_validation_and_fallback "scope" "sess" 0).2.1 "Widget" (some 5) (-3)
     CollabOutcome.exc none (by decide) (by decide),
   (C8_validation_and_fallback "scope" "sess" 0).2.2.1 "Widget" (-7) 2
     CollabOutcome.exc none (by decide) (by decide) (by decide),
   (C8_validation_and_fallback "scope" "sess" 0).2.2.2.1 "Widget" 100
     (by decide) (by decide),
   ((C8_validation_and_fallback "scope" "sess" 0).2.2.2.2 "Widget" 100 2
     (by decide) (by decide) (by decide)).1⟩

/-- C9: for a store configured with a finite TTL, a key written at time
`w` reads as absent at any time after `w + ttl` even though no delete
was called; for a store configured with TTL `none`, no sequence of
get/set operations at any times ever makes `get` treat a record as
expired — a get after any operation sequence still returns the payload
of the last `set` for its key. -/
theorem C9_ttl_expiry (st1 st2 : SessionStore) (t w now1 now2 : Nat)
    (k k2 : String) (p v : Obj) (ops : List StoreOp)
    (h1 : st1.ttl_seconds = some t)
    (hexp : w + t < now1)
    (h2 : st2.ttl_seconds = none)
    (hlast : lastSet ops k2 = some v) :
    ((st1.set w k p).get now1 k).1 = none
    ∧ ((runOps st2 ops).get now2 k2).1 = some v := by
  constructor
  · rw [SessionStore.set, SessionStore.get]
    simp only [storeLookup, if_pos rfl]
    simp [h1, hexp]
  · rw [runOps_lastSet k2 now2 ops st2 h2, hlast]

theorem C9_ttl_expiry_witness :
    ((SessionStore.mk (some 10) []).ttl_seconds = some 10
     ∧ 0 + 10 < 11
     ∧ (SessionStore.mk none []).ttl_seconds = none
     ∧ lastSet [StoreOp.setOp 0 "a" [("x", Val.num 1)], StoreOp.getOp 999999 "a"]
         "a" = some [("x", Val.num 1)])
    ∧ (((SessionStore.mk (some 10) []).set 0 "a" [("x", Val.num 1)]).get 11 "a").1 = none
    ∧ ((runOps (SessionStore.mk none [])
        [StoreOp.setOp 0 "a" [("x", Val.num 1)], StoreOp.getOp 999999 "a"]).get
        123456789 "a").1 = some [("x", Val.num 1)] :=
  ⟨⟨rfl, by decide, rfl, rfl⟩,
   C9_ttl_expiry (SessionStore.mk (some 10) []) (SessionStore.mk none [])
     10 0 11 123456789 "a" "a" [("x", Val.num 1)] [("x", Val.num 1)]
     [StoreOp.setOp 0 "a" [("x", Val.num 1)], StoreOp.getOp 999999 "a"]
     rfl (by decide) rfl rfl⟩

/-- C10: a second intake call replaces the stored session payload
wholesale with a freshly built one that carries forward only the
accumulated `answers` and `asked_questions`: the stored record after the
call has no `recommendations`, `version`, `project_summary`,
`structured_summary`, or `merged_scope` key, whatever the previous
session contained; `answers` is carried over (best-effort `or {}`) and
`asked_questions` is the union of the old set and the new candidate
questions. -/
theorem C10_intake_rebuild (pn scope sid : String) (b q ts : Int) (c prevS : Obj)
    (A C : List Val)
    (hpn : ¬ pyStrip pn = "") (hq : 1 ≤ q) (hb : 0 ≤ b)
    (hst : (objGet c "status").isSome = true)
    (hrs : (objGet c "requirements_summary").isSome = true)
    (hqs : objGet c "missing_info_questions" = some (.arr C))
    (hasked : objGet prevS "asked_questions" = some (.arr A)) :
    ∃ resp stored, intake_recommendations (some pn) (some b) (some q) scope
        (.parsed (some c)) sid (some prevS) ts = KpaResp.ok resp stored
      ∧ objGet stored "recommendations" = none
      ∧ objGet stored "version" = none
      ∧ objGet stored "project_summary" = none
      ∧ objGet stored "structured_summary" = none
      ∧ objGet stored "merged_scope" = none
      ∧ objGet stored "answers" = some (pyOr (pyGetV prevS "answers") (.obj []))
      ∧ (∃ U, objGet stored "asked_questions" = some (.arr U)
          ∧ ∀ x, x ∈ U ↔ x ∈ A ∨ x ∈ C) := by
  rw [intake_ok_char pn scope sid b q ts c prevS A C hpn hq hb hst hrs hqs hasked]
  refine ⟨_, _, rfl, rfl, rfl, rfl, rfl, rfl, rfl, ⟨_, rfl, ?_⟩⟩
  intro x
  rw [mem_pyUnionVals]
  rw [mem_pySetVals]
  rw [List.mem_filter]
  rw [valMem_pySetVals]
  by_cases hx : x ∈ A
  · simp [hx]
  · simp [hx]

theorem C10_intake_rebuild_witness :
    (objGet [("asked_questions", Val.arr [Val.str "Q1"]),
        ("answers", Val.obj [("Q1", Val.str "A1")]),
        ("recommendations", Val.obj [("r", Val.num 1)]),
        ("version", Val.num 3),
        ("project_summary", Val.str "ps"),
        ("structured_summary", Val.str "ss"),
        ("merged_scope", Val.str "ms")] "recommendations"
        = some (Val.obj [("r", Val.num 1)])
     ∧ objGet [("asked_questions", Val.arr [Val.str "Q1"]),
        ("answers", Val.obj [("Q1", Val.str "A1")]),
        ("recommendations", Val.obj [("r", Val.num 1)]),
        ("version", Val.num 3),
        ("project_summary", Val.str "ps"),
        ("structured_summary", Val.str "ss"),
        ("merged_scope", Val.str "ms")] "asked_questions"
        = some (Val.arr [Val.str "Q1"]))
    ∧ (∃ resp stored, intake_recommendations (some "Widget") (some 100) (some 2)
        "scope" (.parsed (some [("status", Val.str "questions"),
          ("requirements_summary", Val.str "sum"),
          ("missing_info_questions", Val.arr [Val.str "Q2"])]))
        "sess" (some [("asked_questions", Val.arr [Val.str "Q1"]),
          ("answers", Val.obj [("Q1", Val.str "A1")]),
          ("recommendations", Val.obj [("r", Val.num 1)]),
          ("version", Val.num 3),
          ("project_summary", Val.str "ps"),
          ("structured_summary", Val.str "ss"),
          ("merged_scope", Val.str "ms")]) 0 = KpaResp.ok resp stored
      ∧ objGet stored "recommendations" = none
      ∧ objGet stored "version" = none
      ∧ objGet stored "project_summary" = none
      ∧ objGet stored "structured_summary" = none
      ∧ objGet stored "merged_scope" = none
      ∧ objGet stored "answers" = some (pyOr (pyGetV
          [("asked_questions", Val.arr [Val.str "Q1"]),
           ("answers", Val.obj [("Q1", Val.str "A1")]),
           ("recommendations", Val.obj [("r", Val.num 1)]),
           ("version", Val.num 3),
           ("project_summary", Val.str "ps"),
           ("structured_summary", Val.str "ss"),
           ("merged_scope", Val.str "ms")] "answers") (.obj []))
      ∧ (∃ U, objGet stored "asked_questions" = some (.arr U)
          ∧ ∀ x, x ∈ U ↔ x ∈ [Val.str "Q1"] ∨ x ∈ [Val.str "Q2"])) :=
  ⟨⟨by decide, by decide⟩,
   C10_intake_rebuild "Widget" "scope" "sess" 100 2 0
     [("status", Val.str "questions"), ("requirements_summary", Val.str "sum"),
      ("missing_info_questions", Val.arr [Val.str "Q2"])]
     [("asked_questions", Val.arr [Val.str "Q1"]),
      ("answers", Val.obj [("Q1", Val.str "A1")]),
      ("recommendations", Val.obj [("r", Val.num 1)]),
      ("version", Val.num 3),
      ("project_summary", Val.str "ps"),
      ("structured_summary", Val.str "ss"),
      ("merged_scope", Val.str "ms")]
     [Val.str "Q1"] [Val.str "Q2"]
     (by decide) (by decide) (by decide) (by decide) (by decide) (by decide)
     (by decide)⟩
